import Mathlib

/-!
Verification of the Dependency Resolution & Derivation Engine.

This file gives a shallow embedding, in Lean 4, of the rule engine found in
the repository (gate computation in
`helpers/tracker_builder/open_dependencies/build.py`, the task-status pivot in
`helpers/tracker_builder/sap_tracker/pivot.py`, the land tracker builder in
`helpers/tracker_builder/dependency_trackers/land.py`, the comment parsing and
classification subsystem in `helpers/misc/comments.py`,
`helpers/misc/comment_filtering.py` and `helpers/misc/comments_parser.py`, the
tracker rebuild orchestration in
`helpers/poles_tracker_builder/update_trackers.py`, and the delete-then-upsert
row lifecycle shared by the domain tracker builders), and proves or refutes
the specification's claims about it.

SQL expressions are translated literally: `UPPER`, `TRIM`, `COALESCE`,
`NULLIF`, `SUBSTR` rearrangements and `CASE` cascades become the Lean
functions below; SQL `NULL` becomes `Option.none`; SQLite date comparisons
become comparisons of a julian-day-style number computed by the same formula
SQLite uses (an order-isomorphic integer core of `computeJD`).
-/

namespace DepEngine

/-- Models SQLite `TRIM(s)` / Python `str.strip(' ')` on the space character:
removes leading and trailing spaces (code point 32) only. -/
def sqlTrim (s : String) : String :=
  String.mk (((s.data.dropWhile (fun c => c = Char.ofNat 32)).reverse.dropWhile
    (fun c => c = Char.ofNat 32)).reverse)

/-- Models SQLite `UPPER(s)` (ASCII uppercasing, which is all the engine's
status tokens need). -/
def sqlUpper (s : String) : String :=
  String.mk (s.data.map Char.toUpper)

/-- Models SQL `COALESCE(x, d)` for a nullable text column. -/
def coalesce (o : Option String) (d : String) : String :=
  o.getD d

/-- Models the ubiquitous `UPPER(TRIM(COALESCE(col,'')))` normalization used
throughout `build_open_dependencies`. -/
def normUT (o : Option String) : String :=
  sqlUpper (sqlTrim (coalesce o ""))

/-- Models SQL `NULLIF(TRIM(COALESCE(col,'')), '')`. -/
def nullifBlank (o : Option String) : Option String :=
  let t := sqlTrim (coalesce o "")
  if t = "" then none else some t

def isDigit (c : Char) : Bool := decide ('0' ≤ c) && decide (c ≤ '9')

def digitVal (c : Char) : Nat := c.toNat - '0'.toNat

def digitsToNat (l : List Char) : Nat :=
  l.foldl (fun acc c => acc * 10 + digitVal c) 0

/-- Models SQLite `CAST(s AS INTEGER)`: value of the leading run of digits,
0 when the text does not start with a digit (signs are not reachable here). -/
def sqlCastInt (s : String) : Nat :=
  digitsToNat (s.data.takeWhile isDigit)

/-- Integer core of SQLite's `computeJD` (date.c): for a year/month/day read
from a `YYYY-MM-DD` text this computes `X1 + X2 + D + B`; the real julian day
is an affine, strictly monotone function of this value, so every `<` / `>=`
comparison of `julianday`/`date` values is faithfully mirrored. SQLite accepts
any month 1..12 and day 1..31 and lets the formula normalize overflow days. -/
def computeJDCore (y m d : Nat) : Int :=
  let y' : Int := if m ≤ 2 then (y : Int) - 1 else (y : Int)
  let m' : Int := if m ≤ 2 then (m : Int) + 12 else (m : Int)
  let a : Int := y' / 100
  let b : Int := 2 - a + a / 4
  let x1 : Int := 36525 * (y' + 4716) / 100
  let x2 : Int := 306001 * (m' + 1) / 10000
  x1 + x2 + (d : Int) + b

/-- Parses a strict `YYYY-MM-DD` digit layout (the only shape the engine ever
feeds to SQLite's date functions, since every ISO string is produced by a
`SUBSTR` rearrangement of a 10-character `MM/DD/YYYY` text). -/
def parseIsoLayout (s : String) : Option (Nat × Nat × Nat) :=
  match s.data with
  | [y1, y2, y3, y4, h1, m1, m2, h2, d1, d2] =>
    if isDigit y1 && isDigit y2 && isDigit y3 && isDigit y4 &&
       h1 = '-' && isDigit m1 && isDigit m2 &&
       h2 = '-' && isDigit d1 && isDigit d2 then
      some (digitsToNat [y1, y2, y3, y4], digitsToNat [m1, m2], digitsToNat [d1, d2])
    else none
  | _ => none

/-- Models SQLite `julianday(s)` (up to the monotone affine map of
`computeJDCore`): `none` when the text is not a well-formed date. -/
def sqlJulian (s : String) : Option Int :=
  match parseIsoLayout s with
  | none => none
  | some (y, m, d) =>
    if 1 ≤ m && m ≤ 12 && 1 ≤ d && d ≤ 31 then some (computeJDCore y m d) else none

/-- Models the SQL predicate `date(a) < date(b)`: false (SQL NULL) whenever a
side does not parse as a date. -/
def sqlDateLt (a b : String) : Bool :=
  match sqlJulian a, sqlJulian b with
  | some x, some y => decide (x < y)
  | _, _ => false

/-- Models the SQL predicate `date(a) >= date(b)`: false whenever a side does
not parse as a date. -/
def sqlDateGe (a b : String) : Bool :=
  match sqlJulian a, sqlJulian b with
  | some x, some y => decide (y ≤ x)
  | _, _ => false

/-- Models the ISO-normalization CASE used all over `build_open_dependencies`
and `build_land_tracker`: a 10-character `MM/DD/YYYY` text with slashes at
positions 3 and 6 is rearranged by `SUBSTR` into `YYYY-MM-DD`; anything else
becomes SQL NULL. -/
def mmddyyyyToIso (raw : Option String) : Option String :=
  match raw with
  | none => none
  | some s =>
    let cs := s.data
    if cs.length = 10 && cs.get? 2 = some '/' && cs.get? 5 = some '/' then
      some (String.mk ((cs.drop 6).take 4 ++ '-' :: cs.take 2 ++ '-' :: (cs.drop 3).take 2))
    else none

/-! ## Gate Engine (`helpers/tracker_builder/open_dependencies/build.py`) -/

/-- The ordered `AP_ALLOWED` tuple of `build.py`. -/
def AP_ALLOWED : List String := ["PEND", "UNSC", "CONS"]

/-- Raw per-order gate inputs: the `sap_tracker` columns joined in the `src`
CTE of `build_open_dependencies`, the three normalized expiration-date
sources, and the previous rebuild's `land_tracker.Action` (SQL NULL when the
order has no land tracker row or the table does not exist yet). -/
structure GateRaw where
  primaryStatus : Option String
  sp56 : Option String
  rp56 : Option String
  sp57 : Option String
  rp57 : Option String
  pc24 : Option String
  ds76 : Option String
  pc21 : Option String
  pc20 : Option String
  ap10 : Option String
  ap25 : Option String
  ds28 : Option String
  ds73 : Option String
  epwExpirationRaw : Option String
  mppPermitExpRaw : Option String
  landPermitExpRaw : Option String
  ltAction : Option String

/-- The normalized `src` row of `build_open_dependencies`. -/
structure SrcRow where
  ps : String
  sp56 : String
  rp56 : String
  sp57 : String
  rp57 : String
  pc24 : String
  ds76 : String
  pc21 : String
  pc20 : String
  ap10 : String
  ap25 : String
  ds28 : String
  ds73 : String
  permitExpIso : Option String
  landIso : Option String
  ltAction : Option String

/-- The `src` CTE: `UPPER(TRIM(COALESCE(...,'')))` on every status column,
ISO normalization of the three date sources, and
`permit_exp_iso = ` the later of the EPW and MPP dates (string-`>=` on ISO
texts, which is the chronological order on this shape). -/
def srcOf (g : GateRaw) : SrcRow :=
  let epw := mmddyyyyToIso g.epwExpirationRaw
  let mpp := mmddyyyyToIso g.mppPermitExpRaw
  { ps := normUT g.primaryStatus
    sp56 := normUT g.sp56
    rp56 := normUT g.rp56
    sp57 := normUT g.sp57
    rp57 := normUT g.rp57
    pc24 := normUT g.pc24
    ds76 := normUT g.ds76
    pc21 := normUT g.pc21
    pc20 := normUT g.pc20
    ap10 := normUT g.ap10
    ap25 := normUT g.ap25
    ds28 := normUT g.ds28
    ds73 := normUT g.ds73
    permitExpIso :=
      match epw, mpp with
      | some e, some m => some (if m ≤ e then e else m)
      | _, _ => epw.orElse (fun _ => mpp)
    landIso := mmddyyyyToIso g.landPermitExpRaw
    ltAction := g.ltAction }

/-- The `"Permit"` CASE of `build_open_dependencies`. -/
def permit_gate (r : SrcRow) (todayIso : String) : String :=
  if r.ps ∉ AP_ALLOWED then "Closed"
  else if r.sp56 ∈ ["INPR", "ACTD"] ∨ r.rp56 ∈ ["INPR", "INPT", "ACTD"] ∨
          (r.rp56 = "COMP" ∧
            (r.permitExpIso = none ∨ sqlDateLt (r.permitExpIso.getD "") todayIso)) then
    "Pending"
  else "Closed"

/-- The `TRIM(lt_action) = sentinel` test of the Land CASE: SQL NULL (no land
tracker row) never equals the sentinel. -/
def ltActionIs (a : Option String) (sentinel : String) : Prop :=
  match a with
  | none => False
  | some s => sqlTrim s = sentinel

instance (a : Option String) (s : String) : Decidable (ltActionIs a s) := by
  unfold ltActionIs
  cases a <;> infer_instance

/-- The `"Land"` CASE of `build_open_dependencies`, including the
short-circuit on the previous rebuild's `land_tracker.Action`. -/
def land_gate (r : SrcRow) (todayIso : String) : String :=
  if r.ps ∉ AP_ALLOWED then "Closed"
  else if ltActionIs r.ltAction "Review complete. No permit needed." then "Closed"
  else if ltActionIs r.ltAction "Permit not required." then "Closed"
  else if r.sp57 ∈ ["INPR", "ACTD"] ∨ r.rp57 ∈ ["INPR", "INPT", "ACTD"] ∨
          (r.rp57 = "COMP" ∧
            (r.landIso = none ∨ sqlDateLt (r.landIso.getD "") todayIso)) then
    "Pending"
  else "Closed"

/-- The `"FAA"` CASE of `build_open_dependencies`. -/
def faa_gate (r : SrcRow) : String :=
  if r.ps ∉ AP_ALLOWED then "Closed"
  else if r.pc24 = "INPR" ∨ r.ds76 = "INPR" then "Pending"
  else "Closed"

/-- The `"Environment"` CASE of `build_open_dependencies`. -/
def environment_gate (r : SrcRow) : String :=
  if r.ps ∉ AP_ALLOWED then "Closed"
  else if r.pc21 = "INPR" then "Pending"
  else "Closed"

/-- The `"Joint Pole"` CASE of `build_open_dependencies`. -/
def joint_pole_gate (r : SrcRow) : String :=
  if r.ps ∉ AP_ALLOWED then "Closed"
  else if r.pc20 = "INPR" then "Pending"
  else "Closed"

/-- The `"MiscTSK"` CASE of `build_open_dependencies`. -/
def misctsk_gate (r : SrcRow) : String :=
  if r.ps ≠ "PEND" then "Closed"
  else if "CLEAR TASK" ∈ [r.ap10, r.ap25, r.ds28, r.ds73] then "Pending"
  else "Closed"

/-- One concatenation term of the `"Open Dependencies"` UPDATE:
`CASE WHEN gate='Pending' THEN ' Name' ELSE '' END`. -/
def pendTag (gate name : String) : String :=
  if gate = "Pending" then " " ++ name else ""

/-- The `"Open Dependencies"` UPDATE of `build_open_dependencies`: concatenate
the six tags; the empty concatenation becomes the literal `None`, otherwise
`TRIM(SUBSTR(s, 2))` (drop the first character, then trim spaces). -/
def open_dependencies_string (p l f e j m : String) : String :=
  let s := pendTag p "Permit" ++ pendTag l "Land" ++ pendTag f "FAA" ++
           pendTag e "Environment" ++ pendTag j "Joint Pole" ++ pendTag m "MiscTSK"
  if s = "" then "None" else sqlTrim (String.mk (s.data.drop 1))

/-- The fixed domain-name order of the aggregate, paired with each gate. -/
def pendingNames (p l f e j m : String) : List String :=
  (([("Permit", p), ("Land", l), ("FAA", f), ("Environment", e),
     ("Joint Pole", j), ("MiscTSK", m)].filter (fun x => x.2 = "Pending")).map Prod.fst)

/-- Number of designated task codes showing the in-progress value, as the
claim counts them. -/
def inprCount (vals : List String) : Nat :=
  (vals.filter (fun v => v = "INPR")).length

/-- Modelled from the spec's words (for comparison with the source gates):
`Closed` if primary status outside the allowed set; else `Pending` iff exactly
one designated task code shows an in-progress value. -/
def spec_exactly_one_gate (ps : String) (designated : List String) : String :=
  if ps ∈ AP_ALLOWED ∧ inprCount designated = 1 then "Pending" else "Closed"

/-- A gate input whose FAA codes are both in progress. -/
def gateRawBothInpr : GateRaw :=
  { primaryStatus := some "PEND", sp56 := none, rp56 := none, sp57 := none
    rp57 := none, pc24 := some "INPR", ds76 := some "INPR", pc21 := none
    pc20 := none, ap10 := none, ap25 := none, ds28 := none, ds73 := none
    epwExpirationRaw := none, mppPermitExpRaw := none, landPermitExpRaw := none
    ltAction := none }

/-! ## Task-Status Pivot (`helpers/tracker_builder/sap_tracker/pivot.py`) -/

/-- The `PENDING_STATUSES` set of `pivot.py` (estimation-pending). -/
def PENDING_STATUSES : List String := ["ESTS", "UNSE", "ADER", "APPR"]

/-- The `AP_ALLOWED_STATUSES` set of `pivot.py`. -/
def AP_ALLOWED_STATUSES : List String := ["PEND", "UNSC", "CONS"]

/-- Models the SQLite `MAX` aggregate over the non-NULL values of a group
(binary collation; the engine's status tokens are ASCII, where Lean's string
order coincides with byte order). -/
def sqlMaxAgg (l : List String) : Option String :=
  l.foldl
    (fun acc s =>
      match acc with
      | none => some s
      | some a => some (if a < s then s else a))
    none

/-- The per-group `NULLIF(TaskUsrStatus,'')` of the `filtered` CTE: drops SQL
NULL statuses and blank statuses. -/
def tusOf (obs : List (Option String)) : List String :=
  obs.filterMap fun o =>
    match o with
    | none => none
    | some s => if s = "" then none else some s

/-- One ungated code column of `__codes_final` in `update_codes_batch`:
`Pending Estimation` when `UPPER(COALESCE(Primary Status,''))` is in the
estimation-pending set, else `COALESCE(MAX(non-blank statuses), default)`
when the code was observed (`has = 1`), else `NOTN`. `obs` is the list of
`TaskUsrStatus` values of the order's events carrying this code. -/
def pivot_code (primaryStatus : Option String) (obs : List (Option String))
    (dflt : String) : String :=
  if sqlUpper (coalesce primaryStatus "") ∈ PENDING_STATUSES then "Pending Estimation"
  else if obs ≠ [] then coalesce (sqlMaxAgg (tusOf obs)) dflt
  else "NOTN"

/-- One gated code column (`AP10`/`AP25`/`DS28`/`DS73`) of `__codes_final`:
only evaluated when the primary status is in the active set, in which case it
is `Clear Task` iff the aggregated status upper-cases to `INPR`; `-`
everywhere else. -/
def pivot_code_gated (primaryStatus : Option String)
    (obs : List (Option String)) : String :=
  if sqlUpper (coalesce primaryStatus "") ∈ AP_ALLOWED_STATUSES then
    if obs ≠ [] then
      if sqlUpper (coalesce (sqlMaxAgg (tusOf obs)) "") = "INPR" then "Clear Task" else "-"
    else "-"
  else "-"

/-- The per-order event groups for the fourteen tracked task codes. -/
structure CodeEvents where
  sp56 : List (Option String)
  rp56 : List (Option String)
  sp57 : List (Option String)
  rp57 : List (Option String)
  ds42 : List (Option String)
  pc20 : List (Option String)
  pc21 : List (Option String)
  ds76 : List (Option String)
  pc24 : List (Option String)
  ds11 : List (Option String)
  ap10 : List (Option String)
  ap25 : List (Option String)
  ds28 : List (Option String)
  ds73 : List (Option String)

/-- The full `__codes_final` row written back into `sap_tracker` by
`update_codes_batch`: the ten ungated columns with their family defaults
(`ACTD` for the SP/RP family, `INPR` for the rest) and the four gated
columns. -/
def update_codes_row (ps : Option String) (ev : CodeEvents) : List (String × String) :=
  [("SP56", pivot_code ps ev.sp56 "ACTD"),
   ("RP56", pivot_code ps ev.rp56 "ACTD"),
   ("SP57", pivot_code ps ev.sp57 "ACTD"),
   ("RP57", pivot_code ps ev.rp57 "ACTD"),
   ("DS42", pivot_code ps ev.ds42 "INPR"),
   ("PC20", pivot_code ps ev.pc20 "INPR"),
   ("DS76", pivot_code ps ev.ds76 "INPR"),
   ("PC24", pivot_code ps ev.pc24 "INPR"),
   ("DS11", pivot_code ps ev.ds11 "INPR"),
   ("PC21", pivot_code ps ev.pc21 "INPR"),
   ("AP10", pivot_code_gated ps ev.ap10),
   ("AP25", pivot_code_gated ps ev.ap25),
   ("DS28", pivot_code_gated ps ev.ds28),
   ("DS73", pivot_code_gated ps ev.ds73)]

/-! ## Domain tracker row lifecycle (shared delete-then-upsert commit of
`build_misctsk_tracker`, `build_land_tracker`, and the other domain
builders) -/

section TrackerTable

variable {α : Type}

/-- Lookup of a tracker row by its `Order` primary key. -/
def lookupK (k : Nat) : List (Nat × α) → Option α
  | [] => none
  | p :: t => if p.1 = k then some p.2 else lookupK k t

/-- The `Order` column of a tracker table. -/
def keysOf (t : List (Nat × α)) : List Nat :=
  t.map Prod.fst

/-- Models `INSERT OR REPLACE` of one keyed row: replace the row carrying the
same `Order`, insert otherwise. -/
def upsertRow (t : List (Nat × α)) (r : Nat × α) : List (Nat × α) :=
  if r.1 ∈ keysOf t then t.map (fun p => if p.1 = r.1 then r else p) else t ++ [r]

/-- The commit shape shared by every domain builder (`misctsk.py` step 5,
`land.py` step 8, ...): `DELETE FROM tracker WHERE Order NOT IN (fresh set)`
followed by `INSERT OR REPLACE` of every freshly computed row. -/
def rebuild_tracker_table (old fresh : List (Nat × α)) : List (Nat × α) :=
  fresh.foldl upsertRow (old.filter (fun p => p.1 ∈ keysOf fresh))

theorem keysOf_nil : keysOf ([] : List (Nat × α)) = [] := rfl

theorem keysOf_cons (hd : Nat × α) (tl : List (Nat × α)) :
    keysOf (hd :: tl) = hd.1 :: keysOf tl := rfl

theorem keysOf_upsertRow (t : List (Nat × α)) (r : Nat × α) :
    keysOf (upsertRow t r) = if r.1 ∈ keysOf t then keysOf t else keysOf t ++ [r.1] := by
  unfold upsertRow
  split_ifs with hm
  · unfold keysOf
    rw [List.map_map]
    refine List.map_congr_left fun p _ => ?_
    by_cases h : p.1 = r.1 <;> simp [h]
  · simp [keysOf]

theorem nodup_keysOf_upsertRow (t : List (Nat × α)) (r : Nat × α)
    (h : (keysOf t).Nodup) : (keysOf (upsertRow t r)).Nodup := by
  rw [keysOf_upsertRow]
  split_ifs with hm
  · exact h
  · simpa [List.nodup_append] using ⟨h, fun hx => hm hx⟩

theorem lookupK_eq_none_of_not_mem (k : Nat) (t : List (Nat × α))
    (h : k ∉ keysOf t) : lookupK k t = none := by
  induction t with
  | nil => rfl
  | cons hd tl ih =>
    rw [keysOf_cons, List.mem_cons, not_or] at h
    simp only [lookupK]
    rw [if_neg (fun he => h.1 he.symm), ih h.2]

theorem lookupK_append_of_none (k : Nat) (a b : List (Nat × α))
    (h : lookupK k a = none) : lookupK k (a ++ b) = lookupK k b := by
  induction a with
  | nil => rfl
  | cons hd tl ih =>
    by_cases he : hd.1 = k
    · simp [lookupK, he] at h
    · simp only [List.cons_append, lookupK, if_neg he] at h ⊢
      exact ih h

theorem lookupK_append_single (k : Nat) (t : List (Nat × α)) (r : Nat × α)
    (hk : k ≠ r.1) : lookupK k (t ++ [r]) = lookupK k t := by
  induction t with
  | nil => simp [lookupK, Ne.symm hk]
  | cons hd tl ih =>
    by_cases he : hd.1 = k <;> simp [lookupK, he, ih]

theorem lookupK_map_replace (k : Nat) (r : Nat × α) (t : List (Nat × α))
    (hk : k ≠ r.1) :
    lookupK k (t.map fun p => if p.1 = r.1 then r else p) = lookupK k t := by
  induction t with
  | nil => rfl
  | cons hd tl ih =>
    by_cases he : hd.1 = r.1
    · have hhd : ¬hd.1 = k := fun hh => hk (he.symm.trans hh).symm
      simp only [List.map_cons, lookupK, if_pos he, if_neg (Ne.symm hk), if_neg hhd, ih]
    · simp only [List.map_cons, lookupK, if_neg he]
      by_cases hh : hd.1 = k
      · rw [if_pos hh, if_pos hh]
      · rw [if_neg hh, if_neg hh, ih]

theorem lookupK_upsertRow_self (t : List (Nat × α)) (r : Nat × α) :
    lookupK r.1 (upsertRow t r) = some r.2 := by
  unfold upsertRow
  split_ifs with hm
  · induction t with
    | nil => simp [keysOf] at hm
    | cons hd tl ih =>
      by_cases he : hd.1 = r.1
      · simp [lookupK, he]
      · rw [keysOf_cons, List.mem_cons] at hm
        rcases hm with hm | hm
        · exact absurd hm.symm he
        · simpa [lookupK, he] using ih hm
  · rw [lookupK_append_of_none _ _ _ (lookupK_eq_none_of_not_mem _ _ hm)]
    simp [lookupK]

theorem lookupK_upsertRow_other (t : List (Nat × α)) (r : Nat × α) (k : Nat)
    (hk : k ≠ r.1) : lookupK k (upsertRow t r) = lookupK k t := by
  unfold upsertRow
  split_ifs with hm
  · exact lookupK_map_replace k r t hk
  · exact lookupK_append_single k t r hk

theorem mem_keysOf_iff_lookupK (k : Nat) (t : List (Nat × α)) :
    k ∈ keysOf t ↔ lookupK k t ≠ none := by
  induction t with
  | nil => simp [keysOf, lookupK]
  | cons hd tl ih =>
    rw [keysOf_cons, List.mem_cons]
    by_cases he : hd.1 = k
    · simp [lookupK, he]
    · have hne : ¬k = hd.1 := fun h => he h.symm
      simp [lookupK, he, hne, ih]

theorem fold_upsertRow_spec (fresh : List (Nat × α)) :
    ∀ t0 : List (Nat × α), (keysOf fresh).Nodup →
      (∀ p ∈ fresh, lookupK p.1 (List.foldl upsertRow t0 fresh) = some p.2) ∧
      (∀ k, k ∉ keysOf fresh →
        lookupK k (List.foldl upsertRow t0 fresh) = lookupK k t0) ∧
      ((keysOf t0).Nodup → (keysOf (List.foldl upsertRow t0 fresh)).Nodup) := by
  induction fresh with
  | nil => intro t0 _; simp
  | cons hd tl ih =>
    intro t0 hN
    have hcons : hd.1 ∉ keysOf tl ∧ (keysOf tl).Nodup := by
      simpa [keysOf] using hN
    obtain ⟨ih1, ih2, ih3⟩ := ih (upsertRow t0 hd) hcons.2
    refine ⟨?_, ?_, ?_⟩
    · intro p hp
      simp only [List.foldl_cons]
      rcases List.mem_cons.1 hp with rfl | hp'
      · rw [ih2 p.1 hcons.1, lookupK_upsertRow_self]
      · exact ih1 p hp'
    · intro k hk
      rw [keysOf_cons, List.mem_cons, not_or] at hk
      simp only [List.foldl_cons]
      rw [ih2 k hk.2, lookupK_upsertRow_other _ _ _ hk.1]
    · intro h
      exact ih3 (nodup_keysOf_upsertRow _ _ h)

end TrackerTable

/-! ## Comment line parsing (`helpers/misc/comments.py`)

The regex heads of `comments.py` are anchored `.match` attempts; each is
transliterated into a character-list parser in continuation-passing style so
that the backtracking of `\d{1,2}` / `\d{2,4}` / optional groups inside one
head is reproduced exactly. -/

def chSp : Char := Char.ofNat 32
def chTab : Char := Char.ofNat 9
def chLf : Char := Char.ofNat 10
def chCr : Char := Char.ofNat 13
def chFf : Char := Char.ofNat 12
def chVt : Char := Char.ofNat 11
def chEnDash : Char := Char.ofNat 8211
def chEmDash : Char := Char.ofNat 8212

/-- Python/regex whitespace (`\s`, `str.strip()`) over the engine's ASCII
inputs. -/
def isSpaceChar (c : Char) : Bool :=
  c = chSp || c = chTab || c = chLf || c = chCr || c = chFf || c = chVt

def isAlphaChar (c : Char) : Bool :=
  (decide ('a' ≤ c) && decide (c ≤ 'z')) || (decide ('A' ≤ c) && decide (c ≤ 'Z'))

def isAlnumChar (c : Char) : Bool :=
  isAlphaChar c || isDigit c

/-- Python `str.strip()`. -/
def pyStrip (s : String) : String :=
  String.mk ((s.data.dropWhile isSpaceChar).reverse.dropWhile isSpaceChar).reverse

/-- Python `str.splitlines()` on the `\n` / `\r\n` / `\r` terminators (no
trailing empty line for a terminal newline). -/
def splitLinesAux : List Char → List Char → List String
  | [], acc => if acc = [] then [] else [String.mk acc.reverse]
  | c :: rest, acc =>
    if c = chLf then String.mk acc.reverse :: splitLinesAux rest []
    else if c = chCr then
      match rest with
      | c2 :: rest2 =>
        if c2 = chLf then String.mk acc.reverse :: splitLinesAux rest2 []
        else String.mk acc.reverse :: splitLinesAux (c2 :: rest2) []
      | [] => String.mk acc.reverse :: splitLinesAux [] []
    else splitLinesAux rest (c :: acc)

def splitLinesPy (s : String) : List String :=
  splitLinesAux s.data []

/-- Python date components (uses the proleptic Gregorian calendar with strict
validity, `datetime.date` raising on out-of-range components). -/
structure PyDate where
  year : Nat
  month : Nat
  day : Nat
  deriving DecidableEq

def isLeapYear (y : Nat) : Bool :=
  (y % 4 = 0 && y % 100 ≠ 0) || y % 400 = 0

def daysInMonth (y m : Nat) : Nat :=
  if m = 2 then (if isLeapYear y then 29 else 28)
  else if m = 4 ∨ m = 6 ∨ m = 9 ∨ m = 11 then 30
  else 31

def validPyDate (y m d : Nat) : Bool :=
  1 ≤ y && y ≤ 9999 && 1 ≤ m && m ≤ 12 && 1 ≤ d && d ≤ daysInMonth y m

/-- Zero-padded decimal rendering (`%0wd`). -/
def padNum (w n : Nat) : String :=
  let s := toString n
  if s.length < w then String.mk (List.replicate (w - s.length) '0') ++ s else s

/-- Models `comments.py` `_to_iso`: `date(yyyy, mm, dd).isoformat()` or
`None` when the components are not a real date. -/
def toIsoDate (y m d : Nat) : Option String :=
  if validPyDate y m d then
    some (padNum 4 y ++ "-" ++ padNum 2 m ++ "-" ++ padNum 2 d)
  else none

/-- The `MM/DD/YYYY` rendering `f"{mm:02d}/{dd:02d}/{yyyy:04d}"`. -/
def mdyText (m d y : Nat) : String :=
  padNum 2 m ++ "/" ++ padNum 2 d ++ "/" ++ padNum 4 y

/-- `_yyyy_from_two`: `2000 + yy`. -/
def yyyyFromTwo (yy : Nat) : Nat :=
  2000 + yy

def sepSlashDash (c : Char) : Bool :=
  c = '/' || c = '-'

/-- Exactly `n` digits, accumulating their value. -/
def takeDigitsAux : Nat → Nat → List Char → Option (Nat × List Char)
  | 0, acc, l => some (acc, l)
  | n + 1, acc, l =>
    match l with
    | c :: rest => if isDigit c then takeDigitsAux n (acc * 10 + digitVal c) rest else none
    | [] => none

/-- A counted digit group (`\d{lo,hi}`) with regex backtracking: widths are
tried greedily and the continuation decides whether a width survives. The
continuation receives the value, the width taken, and the rest. -/
def digitsTry {α : Type} : List Nat → List Char → (Nat → Nat → List Char → Option α) → Option α
  | [], _, _ => none
  | w :: ws, l, k =>
    match takeDigitsAux w 0 l with
    | some (v, rest) =>
      match k v w rest with
      | some r => some r
      | none => digitsTry ws l k
    | none => digitsTry ws l k

/-- `\s*`. -/
def dropWs (l : List Char) : List Char :=
  l.dropWhile isSpaceChar

/-- `\s+` followed by nothing-sensitive context (greedy). -/
def dropWs1 (l : List Char) : Option (List Char) :=
  match l with
  | c :: rest => if isSpaceChar c then some (dropWs rest) else none
  | [] => none

/-- A trailing `\s* [one-of extra]? \s*` (greedy; pattern end follows, so no
backtracking is possible). -/
def tailSep (extra : List Char) (l : List Char) : List Char :=
  match dropWs l with
  | c :: rest => if c ∈ extra then dropWs rest else c :: rest
  | [] => []

/-- Exactly four alphanumerics (`[A-Za-z0-9]{4}`). -/
def takeLan4 : List Char → Option (List Char × List Char)
  | a :: b :: c :: d :: rest =>
    if isAlnumChar a && isAlnumChar b && isAlnumChar c && isAlnumChar d then
      some ([a, b, c, d], rest)
    else none
  | _ => none

/-- The `\d{1,2}[/ -]\d{1,2}(?:[/ -]\d{2,4})?` date sub-pattern, handing the
captured date text and the rest to the continuation (with full backtracking
over the digit widths and the optional year group). -/
def matchDateMDY {α : Type} (l : List Char) (k : List Char → List Char → Option α) :
    Option α :=
  digitsTry [2, 1] l fun _ w1 r1 =>
    match r1 with
    | c :: r2 =>
      if sepSlashDash c then
        digitsTry [2, 1] r2 fun _ w2 r3 =>
          let noYear := fun (_ : Unit) => k (l.take (w1 + 1 + w2)) r3
          match r3 with
          | c2 :: r4 =>
            if sepSlashDash c2 then
              match digitsTry [4, 3, 2] r4
                  (fun _ wy r5 => k (l.take (w1 + 1 + w2 + 1 + wy)) r5) with
              | some r => some r
              | none => noYear ()
            else noYear ()
          | [] => noYear ()
      else none
    | [] => none

/-- The `_bracket` head `^\s*\[\s*(date)\s+(lan4)\s*\]\s*`: returns the date
text, the LAN characters, and the rest of the line. -/
def bracketHead (s : List Char) : Option (List Char × List Char × List Char) :=
  match dropWs s with
  | c :: r1 =>
    if c = '[' then
      matchDateMDY (dropWs r1) fun dt r3 =>
        match dropWs1 r3 with
        | none => none
        | some r4 =>
          match takeLan4 r4 with
          | none => none
          | some (lan, r5) =>
            match dropWs r5 with
            | c2 :: r6 => if c2 = ']' then some (dt, lan, dropWs r6) else none
            | [] => none
    else none
  | [] => none

/-- The `_iso_hyphen_lan` head
`^\s*(\d{4})-(\d{2})-(\d{2})\s*[-–—]\s*(lan4)\s*[-:–—]?\s*`. -/
def isoHyphenHead (s : List Char) :
    Option ((Nat × Nat × Nat) × List Char × List Char) :=
  let l := dropWs s
  match takeDigitsAux 4 0 l with
  | none => none
  | some (y, r1) =>
    match r1 with
    | c1 :: r2 =>
      if c1 = '-' then
        match takeDigitsAux 2 0 r2 with
        | none => none
        | some (m, r3) =>
          match r3 with
          | c2 :: r4 =>
            if c2 = '-' then
              match takeDigitsAux 2 0 r4 with
              | none => none
              | some (d, r5) =>
                match dropWs r5 with
                | c3 :: r6 =>
                  if c3 = '-' ∨ c3 = chEnDash ∨ c3 = chEmDash then
                    match takeLan4 (dropWs r6) with
                    | none => none
                    | some (lan, r7) =>
                      some ((y, m, d), lan, tailSep ['-', ':', chEnDash, chEmDash] r7)
                  else none
                | [] => none
            else none
          | [] => none
      else none
    | [] => none

/-- The `_date_then_paren_lan` head
`^\s*(date)\s*\(\s*(lan4)\s*\)\s*[-:–—]?\s*`. -/
def dateParenHead (s : List Char) : Option (List Char × List Char × List Char) :=
  matchDateMDY (dropWs s) fun dt r1 =>
    match dropWs r1 with
    | c :: r2 =>
      if c = '(' then
        match takeLan4 (dropWs r2) with
        | none => none
        | some (lan, r3) =>
          match dropWs r3 with
          | c2 :: r4 =>
            if c2 = ')' then some (dt, lan, tailSep ['-', ':', chEnDash, chEmDash] r4)
            else none
          | [] => none
      else none
    | [] => none

/-- The `_paren_date_lan` head
`^\s*\(\s*(date)\s*(?:[-–—]\s*)?(lan4)\s*\)\s*[-:–—]?\s*`. -/
def parenDateLanHead (s : List Char) : Option (List Char × List Char × List Char) :=
  match dropWs s with
  | c :: r1 =>
    if c = '(' then
      matchDateMDY (dropWs r1) fun dt r2 =>
        let r3 := dropWs r2
        let r4 :=
          match r3 with
          | c2 :: r3' =>
            if c2 = '-' ∨ c2 = chEnDash ∨ c2 = chEmDash then dropWs r3' else r3
          | [] => r3
        match takeLan4 r4 with
        | none => none
        | some (lan, r5) =>
          match dropWs r5 with
          | c3 :: r6 =>
            if c3 = ')' then some (dt, lan, tailSep ['-', ':', chEnDash, chEmDash] r6)
            else none
          | [] => none
    else none
  | [] => none

/-- The `_date_num_head` head
`^\s*(\d{1,2})[/ -](\d{1,2})(?:[/ -](\d{2,4}))?\s*[-:.]?\s*`: month, day, the
optional year with its digit width, and the rest. -/
def dateNumHead (s : List Char) :
    Option ((Nat × Nat × Option (Nat × Nat)) × List Char) :=
  let l := dropWs s
  digitsTry [2, 1] l fun m _ r1 =>
    match r1 with
    | c :: r2 =>
      if sepSlashDash c then
        digitsTry [2, 1] r2 fun d _ r3 =>
          let noYear := fun (_ : Unit) =>
            some ((m, d, none), tailSep ['-', ':', '.'] r3)
          match r3 with
          | c2 :: r4 =>
            if sepSlashDash c2 then
              match digitsTry [4, 3, 2] r4 (fun y wy r5 =>
                  some ((m, d, some (y, wy)), tailSep ['-', ':', '.'] r5)) with
              | some r => some r
              | none => noYear ()
            else noYear ()
          | [] => noYear ()
      else none
    | [] => none

/-- The month map of `comments.py` (`_MON`). -/
def monthOfAbbrev (s : String) : Option Nat :=
  if s = "JAN" then some 1 else if s = "FEB" then some 2
  else if s = "MAR" then some 3 else if s = "APR" then some 4
  else if s = "MAY" then some 5 else if s = "JUN" then some 6
  else if s = "JUL" then some 7 else if s = "AUG" then some 8
  else if s = "SEP" then some 9 else if s = "OCT" then some 10
  else if s = "NOV" then some 11 else if s = "DEC" then some 12
  else none

/-- The `_date_mon_head` head
`^\s*(\d{1,2})([A-Za-z]{3})(\d{2,4})\s*[-:.]?\s*` (e.g. `12JAN25`): day,
three-letter month, year value, and the rest. -/
def dateMonHead (s : List Char) : Option ((Nat × String × Nat) × List Char) :=
  let l := dropWs s
  digitsTry [2, 1] l fun d _ r1 =>
    match r1 with
    | a :: b :: c :: r2 =>
      if isAlphaChar a && isAlphaChar b && isAlphaChar c then
        digitsTry [4, 3, 2] r2 fun y _ r3 =>
          some ((d, sqlUpper (String.mk [a, b, c]), y), tailSep ['-', ':', '.'] r3)
      else none
    | _ => none

/-- The `_lan_token` head
`^\s*([A-Za-z0-9]{4})(?![A-Za-z0-9])\s*[-:.]?\s*`. -/
def lanTokenHead (s : List Char) : Option (List Char × List Char) :=
  match takeLan4 (dropWs s) with
  | none => none
  | some (lan, r1) =>
    match r1 with
    | c :: _ => if isAlnumChar c then none else some (lan, tailSep ['-', ':', '.'] r1)
    | [] => some (lan, tailSep ['-', ':', '.'] [])

/-- `_parse_mmdd_like`: anchored full match of
`^\s*(\d{1,2})[/ -](\d{1,2})(?:[/ -](\d{2,4}))?\s*$`, a two-digit year mapping
to `2000+YY`, a missing year taken from `today`; validated through
`date(...)`. Returns `(iso, MM/DD/YYYY)` or nothing. -/
def parseMmddLike (text : List Char) (today : PyDate) : Option (String × String) :=
  let l := dropWs text
  let finish := fun (m d y : Nat) (rest : List Char) =>
    if dropWs rest = ([] : List Char) then
      match toIsoDate y m d with
      | some iso => some (iso, mdyText m d y)
      | none => none
    else none
  digitsTry [2, 1] l fun m _ r1 =>
    match r1 with
    | c :: r2 =>
      if sepSlashDash c then
        digitsTry [2, 1] r2 fun d _ r3 =>
          let noYear := fun (_ : Unit) => finish m d today.year r3
          match r3 with
          | c2 :: r4 =>
            if sepSlashDash c2 then
              match digitsTry [4, 3, 2] r4 (fun y wy r5 =>
                  finish m d (if wy = 4 then y else yyyyFromTwo y) r5) with
              | some r => some r
              | none => noYear ()
            else noYear ()
          | [] => noYear ()
      else none
    | [] => none

/-- The LAN-token-then-comment tail shared by the numeric and alpha-month
paths of `parse_comment_line` (step 6): an optional bounded 4-character
alphanumeric token right after the date becomes the upper-cased identifier,
the stripped remainder (or nothing) the comment. -/
def lanAndComment (iso mdy : Option String) (rest : List Char) :
    Option String × Option String × Option String × Option String :=
  match lanTokenHead rest with
  | some (lan, r2) =>
    let c := pyStrip (String.mk r2)
    (iso, mdy, some (sqlUpper (String.mk lan)), if c = "" then none else some c)
  | none =>
    let c := pyStrip (String.mk rest)
    (iso, mdy, none, if c = "" then none else some c)

/-- Models `parse_comment_line` of `comments.py`: from a single line returns
`(iso_date, mdy_text, lan_id, comment_text)`, trying the header shapes in
source order — bracketed `[date id]`, ISO-date-hyphen-id, `date(id)`,
`(date-id)` / `(date - id)`, plain numeric date head, alpha-month head
(`12JAN25`) — an asterisk-led line yielding nothing. -/
def parse_comment_line (line : String) (today : PyDate) :
    Option String × Option String × Option String × Option String :=
  let s := pyStrip line
  if s = "" then (none, none, none, none)
  else if s.data.head? = some '*' then (none, none, none, none)
  else
    match bracketHead s.data with
    | some (dt, lan, rest) =>
      let lanU := sqlUpper (String.mk lan)
      let restS := pyStrip (String.mk rest)
      (match parseMmddLike dt today with
       | some (iso, mdy) =>
         (some iso, some mdy, some lanU, if restS = "" then none else some restS)
       | none => (none, none, some lanU, if restS = "" then none else some restS))
    | none =>
    match isoHyphenHead s.data with
    | some ((y, m, d), lan, rest) =>
      let iso := toIsoDate y m d
      let mdy := iso.map fun _ => mdyText m d y
      let lanU := sqlUpper (String.mk lan)
      let restS := pyStrip (String.mk rest)
      (iso, mdy, some lanU, if restS = "" then none else some restS)
    | none =>
    match dateParenHead s.data with
    | some (dt, lan, rest) =>
      let lanU := sqlUpper (String.mk lan)
      let restS := pyStrip (String.mk rest)
      (match parseMmddLike dt today with
       | some (iso, mdy) =>
         (some iso, some mdy, some lanU, if restS = "" then none else some restS)
       | none => (none, none, some lanU, if restS = "" then none else some restS))
    | none =>
    match parenDateLanHead s.data with
    | some (dt, lan, rest) =>
      let lanU := sqlUpper (String.mk lan)
      let restS := pyStrip (String.mk rest)
      (match parseMmddLike dt today with
       | some (iso, mdy) =>
         (some iso, some mdy, some lanU, if restS = "" then none else some restS)
       | none => (none, none, some lanU, if restS = "" then none else some restS))
    | none =>
    match dateNumHead s.data with
    | some ((m, d, yOpt), rest) =>
      let yyyy :=
        match yOpt with
        | some (y, wy) => if wy = 4 then y else yyyyFromTwo y
        | none => today.year
      let iso := toIsoDate yyyy m d
      let mdy := iso.map fun _ => mdyText m d yyyy
      lanAndComment iso mdy rest
    | none =>
    match dateMonHead s.data with
    | some ((d, mon, y), rest) =>
      (match monthOfAbbrev mon with
       | some m =>
         let yyyy := if 100 ≤ y then y else yyyyFromTwo y
         let iso := toIsoDate yyyy m d
         let mdy := iso.map fun _ => mdyText m d yyyy
         lanAndComment iso mdy rest
       | none => lanAndComment none none s.data)
    | none => lanAndComment none none s.data

/-- Models `_is_noise_banner`: blank, asterisk-led, or short digit-free
all-caps banner lines. -/
def isNoiseBanner (s : String) : Bool :=
  let t := pyStrip s
  if t = "" then true
  else if t.data.head? = some '*' then true
  else sqlUpper t = t && t.data.all (fun c => !isDigit c) && t.data.length ≤ 120

/-- Models `extract_latest_comment_block` of `comments.py`: parse every
non-banner line, drop lines yielding nothing meaningful, and return the
top-most dated line, else the top-most line with a LAN, else the top-most
plain textual line. -/
def extract_latest_comment_block (raw : String) (today : PyDate) :
    Option String × Option String × Option String × Option String :=
  if raw = "" then (none, none, none, none)
  else
    let meaningful :=
      ((splitLinesPy raw).filterMap fun line =>
        if isNoiseBanner line then none else some (parse_comment_line line today)).filter
        fun r =>
          r.1.isSome || r.2.2.1.isSome ||
            (match r.2.2.2 with
             | some t => pyStrip t ≠ ""
             | none => false)
    let dated := meaningful.filter fun r => r.1.isSome
    let withLan := meaningful.filter fun r => r.1.isNone && r.2.2.1.isSome
    let plain := meaningful.filter fun r =>
      r.1.isNone && r.2.2.1.isNone && !isNoiseBanner (coalesce r.2.2.2 "")
    match dated.head? with
    | some r => r
    | none =>
      match withLan.head? with
      | some r => r
      | none =>
        match plain.head? with
        | some r => r
        | none => (none, none, none, none)

/-! ## Date normalization (`helpers/misc/comment_filtering.py`) -/

def allDigits (l : List Char) : Bool :=
  !l.isEmpty && l.all isDigit

/-- The `^\d{4}[/ -]\d{1,2}[/ -]\d{1,2}$` year-first literal test of
`normalize_date_str` (separator slash or dash). -/
def yearfirstLiteral (s : String) : Bool :=
  match takeDigitsAux 4 0 s.data with
  | none => false
  | some (_, r1) =>
    match r1 with
    | c1 :: r2 =>
      sepSlashDash c1 &&
        (match digitsTry [2, 1] r2 (fun _ _ r3 =>
            match r3 with
            | c2 :: r4 =>
              if sepSlashDash c2 then
                digitsTry [2, 1] r4 (fun _ _ r5 => if r5 = [] then some () else none)
              else none
            | [] => none) with
         | some _ => true
         | none => false)
    | [] => false

/-- Python `str.split(sep)` for a one-character separator. -/
def splitOnChar (sep : Char) : List Char → List (List Char)
  | [] => [[]]
  | c :: rest =>
    if c = sep then [] :: splitOnChar sep rest
    else
      match splitOnChar sep rest with
      | h :: t => (c :: h) :: t
      | [] => [[c]]

/-- `sep.join(parts)` for a one-character separator. -/
def joinWithChar (sep : Char) : List (List Char) → List Char
  | [] => []
  | [p] => p
  | p :: rest => p ++ sep :: joinWithChar sep rest

/-- Modelled from the `pd.to_datetime(s, errors="coerce", yearfirst=...)`
call in `normalize_date_str`, restricted to the two shapes that function
feeds it: a `YYYY sep M sep D` literal (parsed year-first) and a three-part
`M sep D sep Y` text (parsed month-first, two-digit years pivoting to `20YY`
below 50 per dateutil); anything unparseable coerces to `NaT` (`none`). -/
def pdToDatetime (s : List Char) (yearfirst : Bool) : Option PyDate :=
  let sep := if s.contains '/' then '/' else '-'
  match splitOnChar sep s with
  | [a, b, c] =>
    if allDigits a && allDigits b && allDigits c then
      let va := digitsToNat a
      let vb := digitsToNat b
      let vc := digitsToNat c
      if yearfirst then
        if validPyDate va vb vc then some ⟨va, vb, vc⟩ else none
      else
        let y := if c.length ≤ 2 then (if vc < 50 then 2000 + vc else 1900 + vc) else vc
        if validPyDate y va vb then some ⟨y, va, vb⟩ else none
    else none
  | _ => none

/-- Models `normalize_date_str` of `comment_filtering.py`: detect the
year-first literal; otherwise pick the separator (slash preferred), inject
the reference year when only month/day are present, and parse; `NaT` when
nothing applies. -/
def normalize_date_str (datestr : String) (assumeYearFromToday : PyDate) :
    Option PyDate :=
  if datestr = "" then none
  else
    let s := pyStrip datestr
    if yearfirstLiteral s then pdToDatetime s.data true
    else
      let sep : Option Char :=
        if s.data.contains '/' then some '/'
        else if s.data.contains '-' then some '-'
        else none
      match sep with
      | none => none
      | some c =>
        let parts := splitOnChar c s.data
        let s' :=
          if parts.length = 2 then
            joinWithChar c (parts ++ [(toString assumeYearFromToday.year).data])
          else s.data
        pdToDatetime s' false

/-! ## A small regular-expression engine

Sufficient for the pattern corpus of `helpers/misc/comments_parser.py`:
character predicates, sequencing, alternation, greedy repetition, and the
word-boundary assertion, with full backtracking (the continuation-passing
matcher tries alternatives in source order, so alternation order and
greediness behave as in Python's `re`). All patterns are compiled with
IGNORECASE (case-insensitive character tokens) and DOTALL (`.` matches every
character). -/

inductive RE where
  | eps : RE
  | tok : (Char → Bool) → RE
  | seq : RE → RE → RE
  | alt : RE → RE → RE
  | star : RE → RE
  | wb : RE

/-- Regex word characters (`\w` = `[A-Za-z0-9_]`). -/
def isWordChar (c : Char) : Bool :=
  isAlnumChar c || c = '_'

/-- The `\b` assertion at a position given the previous character and the
remaining input. -/
def atBoundary (prev : Option Char) (s : List Char) : Bool :=
  let pw := match prev with | some c => isWordChar c | none => false
  let nw := match s with | c :: _ => isWordChar c | [] => false
  pw != nw

/-- The backtracking matcher: `reRun fuel r prev s k` attempts to match `r`
at the head of `s` (`prev` is the character just before `s`, for `\b`) and
calls the continuation on every way of doing so, greedy alternatives first.
The fuel bounds the call depth and is chosen comfortably above any depth the
corpus can reach on an input; `star` only iterates after consuming input. -/
def reRun : Nat → RE → Option Char → List Char →
    (Option Char → List Char → Bool) → Bool
  | 0, _, _, _, _ => false
  | fuel + 1, r, prev, s, k =>
    match r with
    | .eps => k prev s
    | .tok p =>
      match s with
      | [] => false
      | c :: rest => p c && k (some c) rest
    | .seq a b => reRun fuel a prev s fun p2 s2 => reRun fuel b p2 s2 k
    | .alt a b => reRun fuel a prev s k || reRun fuel b prev s k
    | .star a =>
      (reRun fuel a prev s fun p2 s2 =>
        if s2.length < s.length then reRun fuel (.star a) p2 s2 k else false) ||
        k prev s
    | .wb => atBoundary prev s && k prev s

/-- The fuel used for a given input. -/
def reFuel (s : List Char) : Nat :=
  120 * (s.length + 2) + 400

/-- Unanchored `re.search`, returning whether the pattern matches anywhere
(leftmost positions tried first). -/
def reSearchAux (r : RE) (fuel : Nat) : Option Char → List Char → Bool
  | prev, [] => reRun fuel r prev [] fun _ _ => true
  | prev, c :: rest =>
    reRun fuel r prev (c :: rest) (fun _ _ => true) || reSearchAux r fuel (some c) rest

def reSearch (r : RE) (s : String) : Bool :=
  reSearchAux r (reFuel s.data) none s.data

/-- A case-insensitive literal character (IGNORECASE). -/
def chCi (c : Char) : RE :=
  .tok fun x => x.toLower = c.toLower

/-- A case-insensitive literal string. -/
def strCi (s : String) : RE :=
  s.data.foldr (fun c acc => .seq (chCi c) acc) .eps

/-- `\s`. -/
def reWs : RE := .tok isSpaceChar

/-- `r+` (greedy). -/
def rePlus (r : RE) : RE := .seq r (.star r)

/-- `\s+`. -/
def wsPlus : RE := rePlus reWs

/-- `\s*`. -/
def wsStar : RE := .star reWs

/-- `.` under DOTALL. -/
def anyCh : RE := .tok fun _ => true

/-- `.*` under DOTALL. -/
def dotStar : RE := .star anyCh

/-- `r?` (greedy). -/
def reOpt (r : RE) : RE := .alt r .eps

/-- Sequencing of a pattern list. -/
def seqAll (l : List RE) : RE :=
  l.foldr .seq .eps

/-- Interleaves `\s+` between the case-insensitive words of a phrase. -/
def wordSeqCore : List String → List RE
  | [] => []
  | [w] => [strCi w]
  | w :: rest => strCi w :: wsPlus :: wordSeqCore rest

/-- `\b w1 \s+ w2 \s+ ... wn \b`: the word-sequence shape most of the
corpus's phrases use. -/
def wordSeq (ws : List String) : RE :=
  seqAll (RE.wb :: wordSeqCore ws ++ [RE.wb])

/-- Ordered alternation of a pattern list (left branch tried first, as in
`re`'s `|`). -/
def altAll : List RE → RE
  | [] => .eps
  | [r] => r
  | r :: rest => .alt r (altAll rest)

/-- `\b ... \b` around a pattern sequence. -/
def phrase (l : List RE) : RE :=
  seqAll (RE.wb :: l ++ [RE.wb])

/-- `[-\s]?`. -/
def dashSpOpt : RE :=
  reOpt (.tok fun c => c = '-' || isSpaceChar c)

/-! ## Classifier patterns (`helpers/misc/comments_parser.py`)

Each entry below transliterates one regex of the source, in source order. -/

/-- `_DISQUALIFY`: conditional "may/if/will … permit … required" and
"to avoid permit" phrases that must not count as no-permit-needed. -/
def disq_re : RE := altAll
  [wordSeq ["to", "avoid", "permit"],
   seqAll [RE.wb, strCi "if", RE.wb, dotStar, RE.wb, strCi "permit", RE.wb, dotStar,
     RE.wb, strCi "required", RE.wb],
   seqAll [RE.wb, strCi "may", RE.wb, dotStar, RE.wb, strCi "permit", RE.wb, dotStar,
     RE.wb, strCi "required", RE.wb],
   seqAll [RE.wb, strCi "will", RE.wb, dotStar, RE.wb, strCi "permit", RE.wb, dotStar,
     RE.wb, strCi "required", RE.wb]]

/-- `_POSITIVE_NO_PERMIT`: the strong no-permit/no-land-rights phrases. -/
def pos_no_permit_res : List RE :=
  [phrase [strCi "no", wsPlus, strCi "additional", wsPlus, strCi "land", wsPlus,
     strCi "rights", wsPlus, .alt (strCi "needed") (strCi "required")],
   phrase [strCi "no", wsPlus, strCi "land", wsPlus, strCi "rights", wsPlus,
     reOpt (.alt (strCi "needed") (strCi "required"))],
   wordSeq ["no", "land", "review", "required"],
   wordSeq ["land", "review", "completed"],
   seqAll [wordSeq ["completed", "intake"], dotStar,
     phrase [strCi "no", wsPlus, strCi "additional", wsPlus, strCi "land", wsPlus,
       strCi "rights", wsPlus, .alt (strCi "required") (strCi "needed")]],
   phrase [strCi "no", wsPlus, strCi "caltrans", wsPlus, strCi "permit", wsPlus,
     .alt (strCi "required") (strCi "needed")],
   wordSeq ["no", "permit", "needed"],
   wordSeq ["no", "permit", "is", "needed"],
   seqAll [RE.wb, strCi "facilities", wsPlus, strCi "located", wsPlus, strCi "outside",
     wsPlus, strCi "of", wsPlus, strCi "caltrans", wsPlus, strCi "right", dashSpOpt,
     strCi "of", dashSpOpt, strCi "way", RE.wb, dotStar,
     wordSeq ["no", "caltrans", "permit", "required"]],
   wordSeq ["no", "land", "needed"],
   seqAll [RE.wb, strCi "no", wsStar, strCi "ct", wsStar,
     .alt (strCi "/") (strCi "or"), wsStar, strCi "rr", wsPlus, strCi "permit",
     wsPlus, strCi "required", RE.wb],
   seqAll [RE.wb, strCi "no", wsStar, strCi "cal", wsStar, strCi "trans",
     reOpt (altAll [strCi "/", strCi "/",
       seqAll [wsStar, strCi "or", wsStar, strCi "rr"]]),
     wsStar, strCi "permit", wsPlus, strCi "required", RE.wb],
   wordSeq ["work", "covered", "under", "the", "caltrans", "annual", "permit"],
   wordSeq ["can", "be", "done", "under", "the", "annual"],
   phrase [strCi "land", wsPlus, strCi "task", reOpt (chCi 's'), wsPlus,
     .alt (strCi "completed") (strCi "cleared")],
   wordSeq ["no", "land", "issues"],
   seqAll [RE.wb, strCi "right", dashSpOpt, strCi "of", dashSpOpt, strCi "way",
     dotStar, wordSeq ["secures", "land", "rights"]],
   seqAll [wordSeq ["secures", "land", "rights"], dotStar, RE.wb,
     reOpt (altAll [seqAll [strCi "tasks", wsPlus, strCi "cleared"],
       seqAll [strCi "land", wsPlus, strCi "task", reOpt (chCi 's'), wsPlus,
         .alt (strCi "completed") (strCi "cleared")]]), RE.wb],
   seqAll [wordSeq ["no", "new", "land", "rights"], dotStar,
     phrase [.alt (strCi "ct") (strCi "caltrans")], dotStar,
     wordSeq ["permit", "needed"]],
   seqAll [wordSeq ["replied", "to"], dotStar,
     phrase [strCi "no", wsPlus, strCi "caltrans", wsPlus, strCi "permit", wsPlus,
       reOpt (seqAll [strCi "is", wsPlus]), strCi "needed"]],
   seqAll [RE.wb, strCi "relinquish", .star (.tok isWordChar), RE.wb, dotStar,
     phrase [altAll [strCi "secures",
       seqAll [strCi "no", wsPlus, strCi "additional", wsPlus, strCi "land", wsPlus,
         strCi "rights"]]]],
   seqAll [RE.wb, strCi "no", wsStar,
     altAll [seqAll [strCi "cal", wsStar, strCi "trans"], strCi "caltrans"], wsPlus,
     strCi "permit", .star (.tok isWordChar), wsPlus,
     reOpt (seqAll [strCi "is", wsPlus]), .alt (strCi "required") (strCi "needed"),
     RE.wb],
   wordSeq ["no", "permit", "required"],
   phrase [strCi "no", wsPlus, strCi "railroad", wsPlus, strCi "permit", wsPlus,
     reOpt (seqAll [strCi "is", wsPlus]), strCi "needed"],
   phrase [strCi "no", wsPlus, strCi "railroad", wsPlus, strCi "permit", wsPlus,
     reOpt (seqAll [strCi "is", wsPlus]), strCi "required"],
   wordSeq ["no", "additional", "land", "needed"],
   phrase [strCi "no", wsPlus, reOpt (seqAll [strCi "new", wsPlus]), strCi "land",
     wsPlus, strCi "rights", wsPlus, strCi "needed"]]

/-- `_POS_FUZZY`: the weaker tails, only consulted when no disqualifier
matches. -/
def pos_fuzzy_res : List RE :=
  [wordSeq ["no", "additional", "land", "rights"],
   wordSeq ["no", "land", "rights"],
   wordSeq ["no", "land", "needed"],
   phrase [altAll [seqAll [strCi "tasks", wsPlus, strCi "cleared"],
     seqAll [strCi "land", wsPlus, strCi "task", reOpt (chCi 's'), wsPlus,
       .alt (strCi "completed") (strCi "cleared")]]]]

/-- `_matches_no_permit`. -/
def matches_no_permit (t : String) : Bool :=
  (pos_no_permit_res.any fun r => reSearch r t) ||
    (!reSearch disq_re t && pos_fuzzy_res.any fun r => reSearch r t)

/-- `_UNDER_REVIEW_PATTERNS`. -/
def under_review_res : List RE :=
  [seqAll [RE.wb, strCi "wr", wsStar, strCi "team", RE.wb, dotStar,
     phrase [strCi "batch"], dotStar, wordSeq ["land", "review"]],
   phrase [strCi "batch", reOpt (strCi "ed"), wsPlus, strCi "for", wsPlus,
     strCi "land", wsPlus, strCi "review"]]

/-- `_matches_under_review`. -/
def matches_under_review (t : String) : Bool :=
  under_review_res.any fun r => reSearch r t

/-- `_PERMIT_REQUIRED_RE`. -/
def permit_required_re : RE :=
  .alt (phrase [strCi "permit", wsPlus, strCi "require", reOpt (chCi 'd')])
    (wordSeq ["permit", "needed"])

/-- `_REVIEW_CONTEXT_RE`. -/
def review_context_re : RE :=
  phrase [altAll [seqAll [strCi "land", wsPlus, strCi "request"],
    seqAll [strCi "land", wsPlus, strCi "permitting", wsPlus, strCi "request"],
    seqAll [strCi "land", wsPlus, strCi "permitting"],
    strCi "caltrans", strCi "railroad"]]

/-- `_matches_reviewed_permit_required`. -/
def matches_reviewed_permit_required (t : String) : Bool :=
  if t = "" then false
  else if matches_no_permit t then false
  else if !reSearch permit_required_re t then false
  else if reSearch review_context_re t then true
  else reSearch (wordSeq ["land", "request", "reviewed"]) t

/-- `_OBTAINED_RE`. -/
def obtained_re : RE :=
  phrase [altAll [strCi "permit",
    seqAll [strCi "cal", wsStar, strCi "trans", wsStar, strCi "permit"],
    seqAll [strCi "caltrans", wsStar, strCi "permit"],
    seqAll [strCi "railroad", wsStar, strCi "permit"],
    strCi "rider/extension"], wsPlus, strCi "obtained"]

/-- `_APPLIED_TRIGGERS` joined into `_APPLIED_RE`. -/
def applied_re : RE := altAll
  [seqAll [phrase [altAll [strCi "applied",
     seqAll [strCi "re", dashSpOpt, strCi "applied"]]], dotStar,
     phrase [strCi "permit"]],
   wordSeq ["permit", "application", "submitted"],
   seqAll [wordSeq ["application", "submitted"], dotStar, phrase [strCi "permit"]],
   wordSeq ["site", "specific", "permit", "application", "submitted"],
   seqAll [phrase [strCi "re", dashSpOpt, strCi "opened"], dotStar,
     phrase [strCi "appl", .alt (strCi "ied") (strCi "ication")], dotStar,
     phrase [strCi "permit"]]]

/-- `_ANTICIPATED_PHRASE_RE`. -/
def anticipated_phrase_re : RE :=
  phrase [strCi "anticipated", wsPlus, strCi "issu", .alt (chCi 'e') (strCi "ed"),
    wsPlus, strCi "date"]

/-- `_matches_applied`. -/
def matches_applied (t : String) : Bool :=
  reSearch applied_re t || reSearch anticipated_phrase_re t

/-- The shared `no … monuments/evidence … found` tail of `_MONUMENT_POSITIVES`. -/
def no_monument_found_re : RE :=
  phrase [strCi "no", wsPlus,
    altAll [seqAll [strCi "evidence", wsPlus, strCi "of", wsPlus, strCi "monument",
      reOpt (strCi "ation")], seqAll [strCi "monument", reOpt (chCi 's')]],
    wsPlus, strCi "found"]

/-- `_MONUMENT_POSITIVES`. -/
def monument_res : List RE :=
  [seqAll [RE.wb, strCi "monument", wsPlus, strCi "preservation", wsPlus,
     altAll [strCi "research", seqAll [strCi "field", wsPlus, strCi "visit"],
       strCi "analysis", strCi "review"], wsPlus,
     .alt (strCi "performed") (strCi "completed"), RE.wb, dotStar,
     no_monument_found_re],
   phrase [strCi "no", wsPlus, strCi "evidence", wsPlus, strCi "of", wsPlus,
     strCi "monument", reOpt (strCi "ation"), wsPlus, strCi "found"],
   phrase [strCi "no", wsPlus, strCi "monument", reOpt (chCi 's'), wsPlus,
     strCi "found"],
   wordSeq ["no", "monument", "found"],
   seqAll [phrase [strCi "monument", wsPlus, strCi "preservation", wsPlus,
     .alt (strCi "review") (strCi "analysis"), wsPlus, strCi "completed"], dotStar,
     phrase [strCi "no", wsPlus, strCi "monument", reOpt (chCi 's'), wsPlus,
       strCi "found"]],
   seqAll [phrase [strCi "monument", reOpt (chCi 's'), wsPlus, strCi "were", wsPlus,
     strCi "not", wsPlus, strCi "found"], dotStar,
     wordSeq ["construction", "limits"]],
   seqAll [phrase [strCi "monument", reOpt (chCi 's'), wsPlus, strCi "were", wsPlus,
     strCi "not", wsPlus, strCi "found"], dotStar, wordSeq ["task", "complete"]],
   seqAll [.alt RE.wb (.tok fun c => c = '_'), strCi "no", wsPlus, strCi "monument",
     wsPlus, strCi "in", wsPlus, strCi "vicinity", RE.wb],
   seqAll [RE.wb, strCi "monument", reOpt (chCi 's'), RE.wb, dotStar,
     wordSeq ["not", "found"]]]

/-- `_matches_monument_done` (gated on the literal word `monument`). -/
def matches_monument_done (t : String) : Bool :=
  if !reSearch (.seq RE.wb (strCi "monument")) t then false
  else monument_res.any fun r => reSearch r t

/-! ## Date extraction (`_extract_expiry` / `_extract_anticipated`)

The two extraction regexes are determinized into leftmost scanners: at each
position the keyword alternation is tried in source order with its
word-boundary checks, then the `[:-]?`-and-whitespace bridge, then the
`\d{1,2}[/ -]\d{1,2}[/ -]\d{2,4}` date with greedy digit groups. -/

/-- Case-insensitive literal prefix match, returning the rest. -/
def ciPrefixAux : List Char → List Char → Option (List Char)
  | [], l => some l
  | _, [] => none
  | w :: ws, c :: cs => if c.toLower = w.toLower then ciPrefixAux ws cs else none

def ciPrefixOf (w : String) (l : List Char) : Option (List Char) :=
  ciPrefixAux w.data l

/-- `\b` right after a word: the next character must not be a word
character. -/
def notWordNext (l : List Char) : Bool :=
  match l with
  | [] => true
  | c :: _ => !isWordChar c

/-- The `\s*[:-]?\s*` bridge followed by the `m sep d sep y` digits. -/
def mdyTail (l : List Char) : Option (Nat × Nat × Nat) :=
  let l1 := dropWs l
  let l2 :=
    match l1 with
    | c :: rest => if c = ':' || c = '-' then dropWs rest else l1
    | [] => l1
  digitsTry [2, 1] l2 fun m _ r1 =>
    match r1 with
    | c :: r2 =>
      if sepSlashDash c then
        digitsTry [2, 1] r2 fun d _ r3 =>
          match r3 with
          | c2 :: r4 =>
            if sepSlashDash c2 then
              digitsTry [4, 3, 2] r4 fun y _ _ => some (m, d, y)
            else none
          | [] => none
      else none
    | [] => none

/-- One keyword attempt of `_EXPIRES_RE` at a position: `expires`, `expire`,
`expiration` in alternation order, each with the trailing `\b`. -/
def expiresKwAt (l : List Char) : Option (List Char) :=
  match ciPrefixOf "expires" l with
  | some r => if notWordNext r then some r else expiresTail l
  | none => expiresTail l
where
  expiresTail (l : List Char) : Option (List Char) :=
    match ciPrefixOf "expire" l with
    | some r =>
      if notWordNext r then some r
      else
        match ciPrefixOf "expiration" l with
        | some r2 => if notWordNext r2 then some r2 else none
        | none => none
    | none =>
      match ciPrefixOf "expiration" l with
      | some r2 => if notWordNext r2 then some r2 else none
      | none => none

/-- Leftmost scan of `_EXPIRES_RE`. -/
def expiryScan : Option Char → List Char → Option (Nat × Nat × Nat)
  | prev, [] =>
    if atBoundary prev [] then none else none
  | prev, c :: rest =>
    match (if atBoundary prev (c :: rest) then
        (expiresKwAt (c :: rest)).bind mdyTail
      else none) with
    | some v => some v
    | none => expiryScan (some c) rest

/-- `_extract_expiry`: the leftmost match's groups, validated and rendered
`m/d/yyyy` (unpadded, `_fmt_mdy`); `None` on no match or failed
validation. -/
def extract_expiry (txt : String) : Option String :=
  match expiryScan none txt.data with
  | none => none
  | some (m, d, y) =>
    let yyyy := if 100 ≤ y then y else yyyyFromTwo y
    if 1 ≤ m && m ≤ 12 && 1 ≤ d && d ≤ 31 && 2000 ≤ yyyy && yyyy ≤ 2100 then
      some (toString m ++ "/" ++ toString d ++ "/" ++ toString yyyy)
    else none

/-- The `anticipated\s+issu(?:e|ed)\s+date\b` keyword of
`_ANTICIPATED_DATE_RE` at a position, returning the rest after `date`. -/
def anticipatedKwAt (l : List Char) : Option (List Char) :=
  (ciPrefixOf "anticipated" l).bind fun r1 =>
    (dropWs1 r1).bind fun r2 =>
      (ciPrefixOf "issu" r2).bind fun r3 =>
        match (ciPrefixOf "e" r3).bind (fun r4 =>
            (dropWs1 r4).bind fun r5 =>
              (ciPrefixOf "date" r5).bind fun r6 =>
                if notWordNext r6 then some r6 else none) with
        | some r => some r
        | none =>
          (ciPrefixOf "ed" r3).bind fun r4 =>
            (dropWs1 r4).bind fun r5 =>
              (ciPrefixOf "date" r5).bind fun r6 =>
                if notWordNext r6 then some r6 else none

/-- The lazy `.*?[:-]?\s*` gap: the first subsequent position where the
date digits match. -/
def scanMdy : List Char → Option (Nat × Nat × Nat)
  | [] => none
  | c :: rest =>
    match mdyTail (c :: rest) with
    | some v => some v
    | none => scanMdy rest

/-- Leftmost scan of `_ANTICIPATED_DATE_RE`. -/
def anticipatedScan : Option Char → List Char → Option (Nat × Nat × Nat)
  | _, [] => none
  | prev, c :: rest =>
    match (if atBoundary prev (c :: rest) then anticipatedKwAt (c :: rest)
      else none) with
    | some r2 =>
      (match scanMdy r2 with
       | some v => some v
       | none => anticipatedScan (some c) rest)
    | none => anticipatedScan (some c) rest

/-- `_extract_anticipated`. -/
def extract_anticipated (txt : String) : Option String :=
  match anticipatedScan none txt.data with
  | none => none
  | some (m, d, y) =>
    let yyyy := if 100 ≤ y then y else yyyyFromTwo y
    if 1 ≤ m && m ≤ 12 && 1 ≤ d && d ≤ 31 && 2000 ≤ yyyy && yyyy ≤ 2100 then
      some (toString m ++ "/" ++ toString d ++ "/" ++ toString yyyy)
    else none

/-! ## The classifier entry point -/

def NO_PERMIT_ACTION : String := "Review complete. No permit needed."
def PERMIT_OBTAINED_ACTION : String := "Permit obtained."
def PERMIT_APPLIED_ACTION : String := "Permit applied for."
def MONUMENT_DONE_ACTION : String := "Monument survey complete."
def UNDER_REVIEW_ACTION : String := "Under review."
def REVIEWED_PERMIT_REQ_ACTION : String :=
  "Request has been reviewed and permit is required."

/-- Models `parse_comment_semantics`: the ordered bucket cascade producing
`(Parsed Action, Parsed Anticipated Issue Date, Parsed Permit Expiration
Date)`. -/
def parse_comment_semantics (latest_comment : String) : String × String × String :=
  let txt := latest_comment
  if reSearch obtained_re txt then
    (PERMIT_OBTAINED_ACTION, "-", coalesce (extract_expiry txt) "-")
  else if matches_applied txt then
    (PERMIT_APPLIED_ACTION, coalesce (extract_anticipated txt) "-", "-")
  else if matches_reviewed_permit_required txt then
    (REVIEWED_PERMIT_REQ_ACTION, "-", "-")
  else if matches_under_review txt then (UNDER_REVIEW_ACTION, "-", "-")
  else if matches_no_permit txt then (NO_PERMIT_ACTION, "-", "-")
  else if matches_monument_done txt then (MONUMENT_DONE_ACTION, "-", "-")
  else ("check", "-", "-")

/-! ## Cross-source reconciliation (`build_land_tracker`, step 6 of
`helpers/tracker_builder/dependency_trackers/land.py`) -/

/-- Python truthiness of an optional string (`None` and `''` are falsy). -/
def pyTruthy (o : Option String) : Bool :=
  match o with
  | none => false
  | some s => s ≠ ""

/-- One source's parse result `(iso, mdy, lan, txt)` as produced by
`extract_latest_comment_block`. -/
structure ParsedTriplet where
  iso : Option String
  mdy : Option String
  lan : Option String
  txt : Option String
  deriving DecidableEq

/-- Lexicographic code-point comparison of character lists (Python string
`<`/`>`; on the engine's `YYYY-MM-DD` texts this is chronological order). -/
def listLtB : List Char → List Char → Bool
  | [], [] => false
  | [], _ :: _ => true
  | _ :: _, [] => false
  | a :: as, b :: bs =>
    if a.toNat < b.toNat then true
    else if b.toNat < a.toNat then false
    else listLtB as bs

/-- Python `a < b` on strings. -/
def strLtB (a b : String) : Bool :=
  listLtB a.data b.data

/-- The `choose_pc` cascade of `build_land_tracker`: prefer the Permit
Comment source when its ISO date is strictly later, when only it has a date,
or when neither has a date and only it has text. -/
def choose_pc (lm pc : ParsedTriplet) : Bool :=
  if pyTruthy lm.iso && pyTruthy pc.iso then
    strLtB (coalesce lm.iso "") (coalesce pc.iso "")
  else if pyTruthy pc.iso && !pyTruthy lm.iso then true
  else if !pyTruthy lm.iso && !pyTruthy pc.iso then pyTruthy pc.txt && !pyTruthy lm.txt
  else false

/-- The `if not x: x = "Not enough data"` fills applied to the winning
tuple's displayed fields. -/
def fillNotEnough (o : Option String) : String :=
  if pyTruthy o then coalesce o "" else "Not enough data"

/-- The filled `(iso, mdy, lan_id, txt)` row inserted into `__land_latest`
for the winning source. -/
def fillTriplet (w : ParsedTriplet) : Option String × String × String × String :=
  (w.iso, fillNotEnough w.mdy, fillNotEnough w.lan, fillNotEnough w.txt)

/-- The per-order reconciliation of `build_land_tracker` step 6: pick the
winner via `choose_pc`, then fill its blanks. -/
def reconcile_latest (lm pc : ParsedTriplet) : Option String × String × String × String :=
  if choose_pc lm pc then fillTriplet pc else fillTriplet lm

/-- The spec example's source A: dated 2025-01-02 with id `AB12`. -/
def tripletA : ParsedTriplet :=
  ⟨some "2025-01-02", some "01/02/2025", some "AB12", some "text A"⟩

/-- The spec example's source B: dated 2025-01-05, no id. -/
def tripletB : ParsedTriplet :=
  ⟨some "2025-01-05", some "01/05/2025", none, some "text B"⟩

/-! ## The Land tracker builder
(`helpers/tracker_builder/dependency_trackers/land.py`) -/

/-- The chosen `land_data` row for an order (the latest by `Permit Created
Date`, earliest-inserted when no row has a parseable date — the dedup itself
is out of scope here). -/
structure LandDataRow where
  permitStatusRaw : Option String
  permitTypeRaw : Option String
  anticipatedAppRaw : Option String
  anticipatedIssueRaw : Option String
  permitExpirationRaw : Option String
  landMgmtComments : Option String
  permitComment : Option String

/-- The per-order upstream inputs of the Land gate and the Land tracker
builder: the pivoted `sap_tracker` columns, the `mpp_data` row, and the
chosen `land_data` row (absent when the order has none). -/
structure LandUpstream where
  primaryStatus : Option String
  notifStatus : Option String
  sp57 : Option String
  rp57 : Option String
  workPlanDateRaw : Option String
  pryRaw : Option String
  landRow : Option LandDataRow

/-- The joined `__land_base` row (steps 2-5 of `build_land_tracker`): the
`__land_ld` projections (`Unknown` default status, `NULLIF`-trimmed type,
ISO helpers) composed with the `COALESCE` defaults of the LEFT JOIN. -/
structure LandBase where
  notif_status : String
  sap_status : String
  work_plan_date_iso : Option String
  pry_int : Option Nat
  sp57 : String
  rp57 : String
  permit_type : Option String
  permit_status : String
  anticipated_app_iso : Option String
  anticipated_issue_iso : Option String
  permit_expiration_date : String
  permit_expiration_iso : Option String
  land_mgmt_comments : String
  permit_comment : String

def land_base_of (u : LandUpstream) : LandBase :=
  { notif_status := coalesce u.notifStatus ""
    sap_status := coalesce u.primaryStatus ""
    work_plan_date_iso := mmddyyyyToIso u.workPlanDateRaw
    pry_int := (nullifBlank u.pryRaw).map sqlCastInt
    sp57 := coalesce u.sp57 ""
    rp57 := coalesce u.rp57 ""
    permit_type := u.landRow.bind fun r => nullifBlank r.permitTypeRaw
    permit_status :=
      match u.landRow with
      | none => "Unknown"
      | some r =>
        if sqlTrim (coalesce r.permitStatusRaw "") = "" then "Unknown"
        else coalesce r.permitStatusRaw ""
    anticipated_app_iso := u.landRow.bind fun r => mmddyyyyToIso r.anticipatedAppRaw
    anticipated_issue_iso := u.landRow.bind fun r => mmddyyyyToIso r.anticipatedIssueRaw
    permit_expiration_date :=
      match u.landRow with
      | none => ""
      | some r => coalesce r.permitExpirationRaw ""
    permit_expiration_iso := u.landRow.bind fun r => mmddyyyyToIso r.permitExpirationRaw
    land_mgmt_comments :=
      match u.landRow with
      | none => ""
      | some r => coalesce r.landMgmtComments ""
    permit_comment :=
      match u.landRow with
      | none => ""
      | some r => coalesce r.permitComment "" }

/-- `CAST(STRFTIME('%Y', iso) AS INTEGER)`: the year of a well-formed date
text, SQL NULL otherwise. -/
def strftimeYear (iso : String) : Option Nat :=
  match parseIsoLayout iso with
  | some (y, m, d) => if 1 ≤ m && m ≤ 12 && 1 ≤ d && d ≤ 31 then some y else none
  | none => none

/-- The ordered Action CASE of `build_land_tracker` step 7. -/
def land_base_action (b : LandBase) (todayIso : String) : String :=
  if sqlUpper (sqlTrim b.sp57) = "COMP" ∧ sqlUpper (sqlTrim b.rp57) = "COMP" ∧
      (b.permit_type = none ∨ sqlTrim (coalesce b.permit_type "") = "") ∧
      sqlTrim b.permit_comment = "" ∧ sqlTrim b.land_mgmt_comments = "" then
    "Permit not required."
  else if b.work_plan_date_iso.isSome ∧ b.pry_int.isSome ∧
      ((match strftimeYear (coalesce b.work_plan_date_iso ""), b.pry_int with
        | some y, some p => decide (p < y)
        | _, _ => false) = true) then
    "WPD ahead of PRY. Please pull in the job."
  else if b.permit_type = none ∧ sqlTrim b.permit_comment = "" ∧
      sqlTrim b.land_mgmt_comments = "" then
    "No data available. Permit likely not required."
  else if b.permit_status = "No permit required." then
    "Please confirm no permit is required and complete SP/RP57."
  else if b.permit_status = "Permit obtained." ∧ b.permit_expiration_iso.isSome ∧
      sqlDateGe (coalesce b.permit_expiration_iso "") todayIso then
    "Please confirm permit is obtained and complete SP/RP57."
  else if b.anticipated_app_iso.isSome ∧
      sqlDateLt todayIso (coalesce b.anticipated_app_iso "") then
    "Anticipated application date is in the future. No action required."
  else if b.anticipated_issue_iso.isSome ∧
      sqlDateLt todayIso (coalesce b.anticipated_issue_iso "") then
    "Anticipated issue date is in the future. No action required."
  else if b.permit_status = "On Hold" then "Job on hold. No action required."
  else "check"

/-- `_to_iso_case_flex` applied to `NULLIF(TRIM(COALESCE(col,'')),'')` (the
step-12 usage): blank/`-` and slash-less texts are NULL; otherwise
`printf('%04d-%02d-%02d', CAST(last-4-chars), CAST(text before the first
slash), CAST(text between the first and second slash — empty when there is
no second slash))`. -/
def toIsoCaseFlex (colVal : Option String) : Option String :=
  match (nullifBlank colVal).map sqlTrim with
  | none => none
  | some e =>
    if e = "" ∨ e = "-" then none
    else if !e.data.contains '/' then none
    else
      let year := sqlCastInt (String.mk (e.data.drop (e.data.length - 4)))
      let monthStr := String.mk (e.data.takeWhile (· ≠ '/'))
      let afterFirst := (e.data.dropWhile (· ≠ '/')).drop 1
      let day :=
        if afterFirst.contains '/' then
          sqlCastInt (String.mk (afterFirst.takeWhile (· ≠ '/')))
        else 0
      some (padNum 4 year ++ "-" ++ padNum 2 (sqlCastInt monthStr) ++ "-" ++
        padNum 2 day)

/-- The step-12 permit-expired guard: Notification Status upper-trims to
`OPEN`, at least one of the two flex-normalized expiration texts is
non-NULL, and the later of their julian days (absent dates counting as
`-1e15`) is before today. -/
def permit_expired_cond (notif exp1 exp2 : Option String) (todayIso : String) : Bool :=
  let i1 := toIsoCaseFlex exp1
  let i2 := toIsoCaseFlex exp2
  let low : Int := -(10 ^ 15)
  let j1 : Int := match i1 with | some s => (sqlJulian s).getD low | none => low
  let j2 : Int := match i2 with | some s => (sqlJulian s).getD low | none => low
  normUT notif = "OPEN" && (i1.isSome || i2.isSome) &&
    (match sqlJulian todayIso with
     | some t => decide (max j1 j2 < t)
     | none => false)

/-- Steps 10-12 of `build_land_tracker` applied to one row: the
no-permit-needed parsed override, the monument-survey override pair, then
the always-winning permit-expired rule. -/
def land_tracker_action (base parsedAction sp57 rp57 : String)
    (notif expDate parsedExpDate : Option String) (todayIso : String) : String :=
  let a1 :=
    if parsedAction = "Review complete. No permit needed." then
      "Review complete. No permit needed."
    else base
  let a2 := if parsedAction = "Monument survey complete." then "check" else a1
  let a3 :=
    if parsedAction = "Monument survey complete." ∧ sqlUpper (sqlTrim sp57) = "COMP" ∧
        sqlUpper (sqlTrim rp57) = "COMP" then
      "Monument survey complete. No action required."
    else a2
  if permit_expired_cond notif expDate parsedExpDate todayIso then
    "Permit expired. Please request for extension."
  else a3

/-- Packs an `extract_latest_comment_block` result. -/
def tripletOf (r : Option String × Option String × Option String × Option String) :
    ParsedTriplet :=
  ⟨r.1, r.2.1, r.2.2.1, r.2.2.2⟩

/-- The full Action computed for an order's fresh Land tracker row within one
rebuild: the base CASE, the reconciled latest comment classified by
`parse_comment_semantics`, and the override chain of steps 10-12. -/
def land_builder_row_action (u : LandUpstream) (today : PyDate) (todayIso : String) :
    String :=
  let b := land_base_of u
  let base := land_base_action b todayIso
  let lm := tripletOf (extract_latest_comment_block b.land_mgmt_comments today)
  let pc := tripletOf (extract_latest_comment_block b.permit_comment today)
  let latestComment := (reconcile_latest lm pc).2.2.2
  let parsed := parse_comment_semantics latestComment
  land_tracker_action base parsed.1 b.sp57 b.rp57 (some b.notif_status)
    (some b.permit_expiration_date) (some parsed.2.2) todayIso

/-- The Land-relevant derived state carried from one rebuild to the next:
the order's gate in `open_dependencies` and its Land tracker row's Action
(absent when the row was deleted or never built). -/
structure LandCycleState where
  landGate : String
  landAction : Option String
  deriving DecidableEq

/-- The gate inputs `build_open_dependencies` derives for the Land CASE from
this order's upstream plus the previous `land_tracker.Action`. -/
def gate_raw_of (u : LandUpstream) (ltAction : Option String) : GateRaw :=
  { primaryStatus := u.primaryStatus, sp56 := none, rp56 := none
    sp57 := u.sp57, rp57 := u.rp57, pc24 := none, ds76 := none, pc21 := none
    pc20 := none, ap10 := none, ap25 := none, ds28 := none, ds73 := none
    epwExpirationRaw := none, mppPermitExpRaw := none
    landPermitExpRaw := u.landRow.bind fun r => r.permitExpirationRaw
    ltAction := ltAction }

/-- One rebuild, restricted to the Land domain of one order, in the fixed
stage order of `build_sap_tracker_initial`: the Gate Engine first computes
the Land gate reading the PREVIOUS rebuild's `land_tracker.Action`; the Land
builder then deletes the row when the new gate is not `Pending` and
otherwise recomputes it fresh. -/
def rebuild_land_cycle (u : LandUpstream) (today : PyDate) (todayIso : String)
    (s : LandCycleState) : LandCycleState :=
  let gate := land_gate (srcOf (gate_raw_of u s.landAction)) todayIso
  let action :=
    if gate = "Pending" then some (land_builder_row_action u today todayIso) else none
  { landGate := gate, landAction := action }

/-- An order whose SP57/RP57 are complete with no land data at all: the Land
gate predicate says `Pending` (RP57 complete, no expiration date) while the
Land builder's first rule derives the verdict `Permit not required.`. -/
def landUpstreamNoPermit : LandUpstream :=
  { primaryStatus := some "PEND", notifStatus := some "OPEN", sp57 := some "COMP"
    rp57 := some "COMP", workPlanDateRaw := none, pryRaw := none, landRow := none }

/-! ## Rebuild orchestration
(`helpers/poles_tracker_builder/update_trackers.py`) -/

/-- Presence of the upstream relations, plus the log of destination tables
committed so far in a run (sqlite commits each stage separately). -/
structure Db where
  order_tracking_list : Bool
  mpp_data : Bool
  sap_data : Bool
  epw_data : Bool
  land_data : Bool
  manual_tracker : Bool
  writes : List String

/-- Appends one committed write to the run's log. -/
def logWrite (db : Db) (t : String) : Db :=
  { db with writes := db.writes ++ [t] }

/-- The tables the validation loop of `build_sap_tracker_initial` actually
checks, in its order. -/
def REQUIRED_CHECKED : List String :=
  ["order_tracking_list", "mpp_data", "sap_data", "epw_data"]

/-- Presence test against `sqlite_master`. -/
def tablePresent (db : Db) (t : String) : Bool :=
  if t = "order_tracking_list" then db.order_tracking_list
  else if t = "mpp_data" then db.mpp_data
  else if t = "sap_data" then db.sap_data
  else if t = "epw_data" then db.epw_data
  else if t = "land_data" then db.land_data
  else if t = "manual_tracker" then db.manual_tracker
  else true

/-- The first missing table the validation loop raises on. -/
def firstMissing (db : Db) : Option String :=
  REQUIRED_CHECKED.find? (fun t => !tablePresent db t)

/-- Stage model of `build_sap_tracker_initial`: validate the four checked
sources (raising before any write); then schema-ensure, seed and pivot write
`sap_tracker`; `build_open_dependencies` commits its ensure-table DDL and
then reads `land_data` unguarded (raising mid-run when it is absent); the
permit, misctsk and faa builders write; `build_environment_tracker` commits
its DDL and then reads `manual_tracker` unguarded; finally the land and
joint-pole builders write. The result pairs the raised error (if any) with
the database state carrying every already-committed write. -/
def build_sap_tracker_initial (db : Db) : Option String × Db :=
  match firstMissing db with
  | some t => (some ("Required table '" ++ t ++ "' not found in DB"), db)
  | none =>
    let db1 := logWrite db "sap_tracker"
    let db2 := logWrite db1 "open_dependencies"
    if db.land_data = false then (some "no such table: land_data", db2)
    else
      let db3 := logWrite db2 "permit_tracker"
      let db4 := logWrite db3 "miscTSK_tracker"
      let db5 := logWrite db4 "faa_tracker"
      let db6 := logWrite db5 "environment_tracker"
      if db.manual_tracker = false then (some "no such table: manual_tracker", db6)
      else
        let db7 := logWrite db6 "land_tracker"
        let db8 := logWrite db7 "joint_pole_tracker"
        (none, db8)

/-- A database with the four checked sources present but `land_data`
missing. -/
def dbMissingLand : Db :=
  { order_tracking_list := true, mpp_data := true, sap_data := true
    epw_data := true, land_data := false, manual_tracker := true, writes := [] }

end DepEngine

namespace DepEngine

/-- C1 counterexample: with primary status `PEND` and both designated FAA
codes (`PC24`, `DS76`) equal to `INPR`, the source gate is `Pending`, while
the claim's predicate ("exactly one designated task code shows `INPR`") says
the gate should be `Closed`. -/
theorem C1_counterexample :
    faa_gate (srcOf gateRawBothInpr) = "Pending" ∧
      spec_exactly_one_gate (srcOf gateRawBothInpr).ps
        [(srcOf gateRawBothInpr).pc24, (srcOf gateRawBothInpr).ds76] = "Closed" := by
  constructor <;> decide

/-- C1 (amended): for every gate input, the FAA, Environment, and Joint Pole
gates are `Closed` when the upper-cased, trimmed primary status is outside
`{PEND, UNSC, CONS}`; otherwise each gate is `Pending` iff at least one of its
designated task codes (`PC24`/`DS76` for FAA, `PC21` for Environment, `PC20`
for Joint Pole) shows the in-progress value `INPR` — which for the one-code
domains Environment and Joint Pole coincides with "exactly one" — and
`Closed` in every other case. -/
theorem C1_faa_env_jp_gates (g : GateRaw) :
    (normUT g.primaryStatus ∉ AP_ALLOWED →
      faa_gate (srcOf g) = "Closed" ∧ environment_gate (srcOf g) = "Closed" ∧
        joint_pole_gate (srcOf g) = "Closed") ∧
    (faa_gate (srcOf g) = "Pending" ↔
      normUT g.primaryStatus ∈ AP_ALLOWED ∧
        (normUT g.pc24 = "INPR" ∨ normUT g.ds76 = "INPR")) ∧
    (environment_gate (srcOf g) = "Pending" ↔
      normUT g.primaryStatus ∈ AP_ALLOWED ∧ inprCount [normUT g.pc21] = 1) ∧
    (joint_pole_gate (srcOf g) = "Pending" ↔
      normUT g.primaryStatus ∈ AP_ALLOWED ∧ inprCount [normUT g.pc20] = 1) ∧
    (faa_gate (srcOf g) = "Pending" ∨ faa_gate (srcOf g) = "Closed") ∧
    (environment_gate (srcOf g) = "Pending" ∨ environment_gate (srcOf g) = "Closed") ∧
    (joint_pole_gate (srcOf g) = "Pending" ∨ joint_pole_gate (srcOf g) = "Closed") := by
  unfold faa_gate environment_gate joint_pole_gate srcOf inprCount
  dsimp only
  refine ⟨?_, ?_, ?_, ?_, ?_, ?_, ?_⟩ <;>
    split_ifs <;> simp_all

/-- C1 witness: the amended theorem applied at the concrete both-INPR input
(gates are Pending) and at an out-of-set primary status (gates are Closed). -/
theorem C1_faa_env_jp_gates_witness :
    faa_gate (srcOf gateRawBothInpr) = "Pending" ∧
      faa_gate (srcOf { gateRawBothInpr with primaryStatus := some "CNCL" }) = "Closed" :=
  ⟨((C1_faa_env_jp_gates gateRawBothInpr).2.1).2 (by decide),
    ((C1_faa_env_jp_gates { gateRawBothInpr with primaryStatus := some "CNCL" }).1
      (by decide)).1⟩

/-- Every gate emitted by `build_open_dependencies` is either `Pending` or
`Closed`. -/
theorem gate_values_range (r : SrcRow) (today : String) :
    (permit_gate r today = "Pending" ∨ permit_gate r today = "Closed") ∧
    (land_gate r today = "Pending" ∨ land_gate r today = "Closed") ∧
    (faa_gate r = "Pending" ∨ faa_gate r = "Closed") ∧
    (environment_gate r = "Pending" ∨ environment_gate r = "Closed") ∧
    (joint_pole_gate r = "Pending" ∨ joint_pole_gate r = "Closed") ∧
    (misctsk_gate r = "Pending" ∨ misctsk_gate r = "Closed") := by
  unfold permit_gate land_gate faa_gate environment_gate joint_pole_gate misctsk_gate
  refine ⟨?_, ?_, ?_, ?_, ?_, ?_⟩ <;> split_ifs <;> simp

/-- On gate values drawn from `{Pending, Closed}`, the aggregate string is
`None` iff all six gates are `Closed`, and otherwise is the space-joined list
of `Pending` domain names in the fixed order. -/
theorem open_dependencies_string_spec (p l f e j m : String)
    (hp : p = "Pending" ∨ p = "Closed") (hl : l = "Pending" ∨ l = "Closed")
    (hf : f = "Pending" ∨ f = "Closed") (he : e = "Pending" ∨ e = "Closed")
    (hj : j = "Pending" ∨ j = "Closed") (hm : m = "Pending" ∨ m = "Closed") :
    (open_dependencies_string p l f e j m = "None" ↔
      (p = "Closed" ∧ l = "Closed" ∧ f = "Closed" ∧ e = "Closed" ∧
        j = "Closed" ∧ m = "Closed")) ∧
    (¬(p = "Closed" ∧ l = "Closed" ∧ f = "Closed" ∧ e = "Closed" ∧
        j = "Closed" ∧ m = "Closed") →
      open_dependencies_string p l f e j m =
        String.intercalate " " (pendingNames p l f e j m)) := by
  rcases hp with rfl | rfl <;> rcases hl with rfl | rfl <;>
    rcases hf with rfl | rfl <;> rcases he with rfl | rfl <;>
    rcases hj with rfl | rfl <;> rcases hm with rfl | rfl <;>
    exact ⟨by decide, by decide⟩

/-- C2: for every row the rebuild writes into `open_dependencies` (its six
gate fields come from the gate CASEs), the `Open Dependencies` field equals
the literal `None` iff all six gates are `Closed`; otherwise it equals the
space-joined names of exactly the `Pending` domains, in the fixed order
Permit, Land, FAA, Environment, Joint Pole, MiscTSK. -/
theorem C2_open_dependencies_aggregate (g : GateRaw) (today : String) :
    (open_dependencies_string (permit_gate (srcOf g) today) (land_gate (srcOf g) today)
        (faa_gate (srcOf g)) (environment_gate (srcOf g)) (joint_pole_gate (srcOf g))
        (misctsk_gate (srcOf g)) = "None" ↔
      (permit_gate (srcOf g) today = "Closed" ∧ land_gate (srcOf g) today = "Closed" ∧
        faa_gate (srcOf g) = "Closed" ∧ environment_gate (srcOf g) = "Closed" ∧
        joint_pole_gate (srcOf g) = "Closed" ∧ misctsk_gate (srcOf g) = "Closed")) ∧
    (¬(permit_gate (srcOf g) today = "Closed" ∧ land_gate (srcOf g) today = "Closed" ∧
        faa_gate (srcOf g) = "Closed" ∧ environment_gate (srcOf g) = "Closed" ∧
        joint_pole_gate (srcOf g) = "Closed" ∧ misctsk_gate (srcOf g) = "Closed") →
      open_dependencies_string (permit_gate (srcOf g) today) (land_gate (srcOf g) today)
        (faa_gate (srcOf g)) (environment_gate (srcOf g)) (joint_pole_gate (srcOf g))
        (misctsk_gate (srcOf g)) =
        String.intercalate " "
          (pendingNames (permit_gate (srcOf g) today) (land_gate (srcOf g) today)
            (faa_gate (srcOf g)) (environment_gate (srcOf g)) (joint_pole_gate (srcOf g))
            (misctsk_gate (srcOf g)))) := by
  obtain ⟨h1, h2, h3, h4, h5, h6⟩ := gate_values_range (srcOf g) today
  exact open_dependencies_string_spec _ _ _ _ _ _ h1 h2 h3 h4 h5 h6

/-- C2 witness: the aggregate at the both-INPR input (FAA pending, so the
string is the joined pending list, here also containing MiscTSK). -/
theorem C2_open_dependencies_aggregate_witness :
    open_dependencies_string (permit_gate (srcOf gateRawBothInpr) "2025-01-01")
        (land_gate (srcOf gateRawBothInpr) "2025-01-01") (faa_gate (srcOf gateRawBothInpr))
        (environment_gate (srcOf gateRawBothInpr)) (joint_pole_gate (srcOf gateRawBothInpr))
        (misctsk_gate (srcOf gateRawBothInpr)) =
      String.intercalate " "
        (pendingNames (permit_gate (srcOf gateRawBothInpr) "2025-01-01")
          (land_gate (srcOf gateRawBothInpr) "2025-01-01") (faa_gate (srcOf gateRawBothInpr))
          (environment_gate (srcOf gateRawBothInpr)) (joint_pole_gate (srcOf gateRawBothInpr))
          (misctsk_gate (srcOf gateRawBothInpr))) :=
  (C2_open_dependencies_aggregate gateRawBothInpr "2025-01-01").2 (by decide)

/-- C9 counterexample: `land_data` is one of the §6-required upstream
relations, yet a rebuild with it missing (and the four checked tables
present) raises only after the `sap_tracker` writes and the
`open_dependencies` DDL have been committed — not "before performing any
writes". -/
theorem C9_counterexample :
    (build_sap_tracker_initial dbMissingLand).1 = some "no such table: land_data" ∧
    (build_sap_tracker_initial dbMissingLand).2.writes =
      ["sap_tracker", "open_dependencies"] ∧
    ["sap_tracker", "open_dependencies"] ≠ ([] : List String) := by
  refine ⟨by decide, by decide, by decide⟩

/-- C9 (amended): the rebuild validates only `order_tracking_list`,
`mpp_data`, `sap_data` and `epw_data` up front — a missing table among these
raises before any write, leaving the database unchanged; a missing
`land_data` raises only inside `build_open_dependencies`, and a missing
`manual_tracker` only inside `build_environment_tracker`, in both cases after
the earlier stages' writes are committed; with all six present the rebuild
completes without error. -/
theorem C9_rebuild_validation (db : Db) :
    (∀ t, firstMissing db = some t →
      build_sap_tracker_initial db =
        (some ("Required table '" ++ t ++ "' not found in DB"), db)) ∧
    (firstMissing db = none → db.land_data = false →
      (build_sap_tracker_initial db).1 = some "no such table: land_data" ∧
      (build_sap_tracker_initial db).2.writes =
        db.writes ++ ["sap_tracker", "open_dependencies"]) ∧
    (firstMissing db = none → db.land_data = true → db.manual_tracker = false →
      (build_sap_tracker_initial db).1 = some "no such table: manual_tracker" ∧
      (build_sap_tracker_initial db).2.writes =
        db.writes ++ ["sap_tracker", "open_dependencies", "permit_tracker",
          "miscTSK_tracker", "faa_tracker", "environment_tracker"]) ∧
    (firstMissing db = none → db.land_data = true → db.manual_tracker = true →
      (build_sap_tracker_initial db).1 = none) := by
  refine ⟨?_, ?_, ?_, ?_⟩
  · intro t ht
    simp [build_sap_tracker_initial, ht]
  · intro hf hl
    simp [build_sap_tracker_initial, hf, hl, logWrite]
  · intro hf hl hm
    simp [build_sap_tracker_initial, hf, hl, hm, logWrite]
  · intro hf hl hm
    simp [build_sap_tracker_initial, hf, hl, hm, logWrite]

/-- C9 witness: the amended theorem applied at a database missing `mpp_data`
(fail-fast, no writes) and at `dbMissingLand` (mid-run failure). -/
theorem C9_rebuild_validation_witness :
    build_sap_tracker_initial
        { order_tracking_list := true, mpp_data := false, sap_data := true
          epw_data := true, land_data := true, manual_tracker := true
          writes := [] } =
      (some "Required table 'mpp_data' not found in DB",
        { order_tracking_list := true, mpp_data := false, sap_data := true
          epw_data := true, land_data := true, manual_tracker := true
          writes := [] }) ∧
    (build_sap_tracker_initial dbMissingLand).1 = some "no such table: land_data" :=
  ⟨(C9_rebuild_validation _).1 "mpp_data" (by decide),
    ((C9_rebuild_validation dbMissingLand).2.1 (by decide) (by decide)).1⟩

/-- Keys of a freshly computed row list are the pending orders themselves. -/
theorem keysOf_map_pair {α : Type} (row : Nat → α) (l : List Nat) :
    keysOf (l.map fun o => (o, row o)) = l := by
  induction l with
  | nil => rfl
  | cons h t ih =>
    simp only [keysOf, List.map_map, List.map_cons] at ih ⊢
    rw [ih]

/-- C8: after a domain builder's delete-then-upsert commit, the tracker table
has at most one row per order (its key column is duplicate-free), its row set
is exactly the currently-Pending order set (`pend`), and every
currently-Pending order holds its freshly computed row — in particular every
order Pending last run but absent from `pend` has been deleted. -/
theorem C8_tracker_row_lifecycle {α : Type} (old : List (Nat × α)) (pend : List Nat)
    (row : Nat → α) (hO : (keysOf old).Nodup) (hP : pend.Nodup) :
    (keysOf (rebuild_tracker_table old (pend.map fun o => (o, row o)))).Nodup ∧
    (∀ k, k ∈ keysOf (rebuild_tracker_table old (pend.map fun o => (o, row o))) ↔
      k ∈ pend) ∧
    (∀ o ∈ pend,
      lookupK o (rebuild_tracker_table old (pend.map fun o => (o, row o))) =
        some (row o)) := by
  have hkf : keysOf (pend.map fun o => (o, row o)) = pend := keysOf_map_pair row pend
  have hT : rebuild_tracker_table old (pend.map fun o => (o, row o)) =
      List.foldl upsertRow
        (old.filter (fun p => p.1 ∈ keysOf (pend.map fun o => (o, row o))))
        (pend.map fun o => (o, row o)) := rfl
  have ht0 : (keysOf (old.filter
      (fun p => p.1 ∈ keysOf (pend.map fun o => (o, row o))))).Nodup :=
    hO.sublist (List.Sublist.map _ (List.filter_sublist _))
  obtain ⟨h1, h2, h3⟩ := fold_upsertRow_spec (pend.map fun o => (o, row o))
    (old.filter (fun p => p.1 ∈ keysOf (pend.map fun o => (o, row o))))
    (by rw [hkf]; exact hP)
  refine ⟨by rw [hT]; exact h3 ht0, ?_, ?_⟩
  · intro k
    constructor
    · intro hk
      by_contra hkp
      rw [mem_keysOf_iff_lookupK, hT] at hk
      apply hk
      rw [h2 k (by rw [hkf]; exact hkp)]
      apply lookupK_eq_none_of_not_mem
      intro hmem
      simp only [keysOf, List.mem_map] at hmem
      obtain ⟨p, hpf, hpk⟩ := hmem
      rw [List.mem_filter] at hpf
      have hpm : p.1 ∈ pend := hkf ▸ of_decide_eq_true hpf.2
      exact hkp (hpk ▸ hpm)
    · intro hk
      rw [mem_keysOf_iff_lookupK, hT,
        h1 (k, row k) (List.mem_map_of_mem _ hk)]
      simp
  · intro o ho
    rw [hT]
    exact h1 (o, row o) (List.mem_map_of_mem _ ho)

/-- C8 witness: the lifecycle theorem at a concrete table — order 1 was
Pending last run only (its row is deleted), order 2 stays Pending (its row is
recomputed), order 3 is newly Pending (its row appears). -/
theorem C8_tracker_row_lifecycle_witness :
    lookupK 2 (rebuild_tracker_table [(1, "oldA"), (2, "oldB")]
        ([2, 3].map fun o => (o, "fresh"))) = some "fresh" ∧
    ¬(1 ∈ keysOf (rebuild_tracker_table [(1, "oldA"), (2, "oldB")]
        ([2, 3].map fun o => (o, "fresh")))) :=
  ⟨(C8_tracker_row_lifecycle [(1, "oldA"), (2, "oldB")] [2, 3] (fun _ => "fresh")
      (by decide) (by decide)).2.2 2 (by decide),
    fun h =>
      by simpa using
        ((C8_tracker_row_lifecycle [(1, "oldA"), (2, "oldB")] [2, 3] (fun _ => "fresh")
          (by decide) (by decide)).2.1 1).1 h⟩

/-- C4: when the order's upper-cased primary status is in the
estimation-pending set, every one of the ten non-gated task-code columns is
the sentinel `Pending Estimation` (and the four gated columns are `-`, the
two status families being disjoint), superseding any grouped event status;
otherwise an ungated column holds the observed non-empty status (stated for a
group whose non-blank statuses are exactly one value), or the family default
when the code was observed only with blank/NULL statuses, or `NOTN` when the
code was never observed. -/
theorem C4_pivot_profile (ps : Option String) (ev : CodeEvents)
    (obs : List (Option String)) (dflt s : String) :
    (sqlUpper (coalesce ps "") ∈ PENDING_STATUSES →
      update_codes_row ps ev =
        [("SP56", "Pending Estimation"), ("RP56", "Pending Estimation"),
         ("SP57", "Pending Estimation"), ("RP57", "Pending Estimation"),
         ("DS42", "Pending Estimation"), ("PC20", "Pending Estimation"),
         ("DS76", "Pending Estimation"), ("PC24", "Pending Estimation"),
         ("DS11", "Pending Estimation"), ("PC21", "Pending Estimation"),
         ("AP10", "-"), ("AP25", "-"), ("DS28", "-"), ("DS73", "-")]) ∧
    (sqlUpper (coalesce ps "") ∉ PENDING_STATUSES →
      (obs = [] → pivot_code ps obs dflt = "NOTN") ∧
      (obs ≠ [] → tusOf obs = [] → pivot_code ps obs dflt = dflt) ∧
      (tusOf obs = [s] → pivot_code ps obs dflt = s)) := by
  constructor
  · intro h
    simp only [PENDING_STATUSES, List.mem_cons, List.mem_singleton,
      List.not_mem_nil, or_false] at h
    rcases h with h | h | h | h <;>
      simp [update_codes_row, pivot_code, pivot_code_gated, PENDING_STATUSES,
        AP_ALLOWED_STATUSES, h]
  · intro h
    simp only [coalesce] at h
    refine ⟨?_, ?_, ?_⟩
    · intro he
      subst he
      simp [pivot_code, coalesce, h]
    · intro hne ht
      simp [pivot_code, coalesce, h, hne, ht, sqlMaxAgg]
    · intro ht
      have hne : obs ≠ [] := by
        intro he
        subst he
        simp [tusOf] at ht
      simp [pivot_code, coalesce, h, hne, ht, sqlMaxAgg]

/-- C4 witness: the theorem applied at an estimation-pending order (all ten
columns become the sentinel) and, for a non-pending order, at a
never-observed group, a blank-only group, and a singleton `COMP` group. -/
theorem C4_pivot_profile_witness :
    update_codes_row (some "ESTS")
        { sp56 := [some "COMP"], rp56 := [], sp57 := [], rp57 := [], ds42 := []
          pc20 := [], pc21 := [], ds76 := [], pc24 := [], ds11 := []
          ap10 := [], ap25 := [], ds28 := [], ds73 := [] } =
      [("SP56", "Pending Estimation"), ("RP56", "Pending Estimation"),
       ("SP57", "Pending Estimation"), ("RP57", "Pending Estimation"),
       ("DS42", "Pending Estimation"), ("PC20", "Pending Estimation"),
       ("DS76", "Pending Estimation"), ("PC24", "Pending Estimation"),
       ("DS11", "Pending Estimation"), ("PC21", "Pending Estimation"),
       ("AP10", "-"), ("AP25", "-"), ("DS28", "-"), ("DS73", "-")] ∧
    pivot_code (some "PEND") [] "ACTD" = "NOTN" ∧
    pivot_code (some "PEND") [none, some ""] "ACTD" = "ACTD" ∧
    pivot_code (some "PEND") [some "COMP", none] "INPR" = "COMP" := by
  refine ⟨?_, ?_, ?_, ?_⟩
  · exact (C4_pivot_profile (some "ESTS") _ [] "ACTD" "").1 (by decide)
  · exact ((C4_pivot_profile (some "PEND")
      { sp56 := [], rp56 := [], sp57 := [], rp57 := [], ds42 := [], pc20 := []
        pc21 := [], ds76 := [], pc24 := [], ds11 := [], ap10 := [], ap25 := []
        ds28 := [], ds73 := [] } [] "ACTD" "").2 (by decide)).1 rfl
  · exact (((C4_pivot_profile (some "PEND")
      { sp56 := [], rp56 := [], sp57 := [], rp57 := [], ds42 := [], pc20 := []
        pc21 := [], ds76 := [], pc24 := [], ds11 := [], ap10 := [], ap25 := []
        ds28 := [], ds73 := [] } [none, some ""] "ACTD" "").2 (by decide)).2.1
      (by decide) (by decide))
  · exact (((C4_pivot_profile (some "PEND")
      { sp56 := [], rp56 := [], sp57 := [], rp57 := [], ds42 := [], pc20 := []
        pc21 := [], ds76 := [], pc24 := [], ds11 := [], ap10 := [], ap25 := []
        ds28 := [], ds73 := [] } [some "COMP", none] "INPR" "COMP").2
      (by decide)).2.2 (by decide))

end DepEngine

namespace DepEngine

/-- C6 counterexample: at the spec's own example — source A (Land Mgmt
Comments) dated 2025-01-02 with id `AB12`, source B (Permit Comment) dated
2025-01-05 with no id — the code keeps B's date and text but reports the
identifier as `Not enough data`; it does not fall back to the losing
source's `AB12`. -/
theorem C6_counterexample :
    reconcile_latest tripletA tripletB =
      (some "2025-01-05", "01/05/2025", "Not enough data", "text B") ∧
    "Not enough data" ≠ "AB12" :=
  ⟨by decide, by decide⟩

/-- C6 (amended): the reconciliation picks the source with the more recent
valid date (the only valid date if just one parses; non-empty text decides
when neither parses, defaulting to the first source on full ties), and the
winner's fields are reported as-is with every blank field — the identifier
included — replaced by the literal `Not enough data`; the winner's blank
identifier does NOT fall back to the losing source's identifier. -/
theorem C6_reconciliation (lm pc : ParsedTriplet) :
    (pyTruthy lm.iso = true → pyTruthy pc.iso = true →
      reconcile_latest lm pc =
        if strLtB (coalesce lm.iso "") (coalesce pc.iso "") then fillTriplet pc
        else fillTriplet lm) ∧
    (pyTruthy pc.iso = true → pyTruthy lm.iso = false →
      reconcile_latest lm pc = fillTriplet pc) ∧
    (pyTruthy lm.iso = true → pyTruthy pc.iso = false →
      reconcile_latest lm pc = fillTriplet lm) ∧
    (pyTruthy lm.iso = false → pyTruthy pc.iso = false →
      reconcile_latest lm pc =
        if pyTruthy pc.txt && !pyTruthy lm.txt then fillTriplet pc
        else fillTriplet lm) ∧
    ((reconcile_latest lm pc).2.2.1 =
      fillNotEnough (if choose_pc lm pc then pc.lan else lm.lan)) := by
  refine ⟨?_, ?_, ?_, ?_, ?_⟩
  · intro h1 h2
    simp [reconcile_latest, choose_pc, h1, h2]
  · intro h1 h2
    simp [reconcile_latest, choose_pc, h1, h2]
  · intro h1 h2
    simp [reconcile_latest, choose_pc, h1, h2]
  · intro h1 h2
    simp [reconcile_latest, choose_pc, h1, h2]
  · unfold reconcile_latest fillTriplet
    split_ifs <;> rfl

/-- C6 witness: the amended theorem applied at the spec example (both dates
valid, B later) and at a neither-parses pair where only the second source
has text. -/
theorem C6_reconciliation_witness :
    reconcile_latest tripletA tripletB =
      (if strLtB (coalesce tripletA.iso "") (coalesce tripletB.iso "") then fillTriplet tripletB
       else fillTriplet tripletA) ∧
    reconcile_latest ⟨none, none, none, none⟩ ⟨none, none, some "CD34", some "hello"⟩ =
      (if pyTruthy (some "hello") && !pyTruthy (none : Option String) then
        fillTriplet ⟨none, none, some "CD34", some "hello"⟩
       else fillTriplet ⟨none, none, none, none⟩) :=
  ⟨(C6_reconciliation tripletA tripletB).1 (by decide) (by decide),
    (C6_reconciliation ⟨none, none, none, none⟩
      ⟨none, none, some "CD34", some "hello"⟩).2.2.2.1 (by decide) (by decide)⟩

/-- C7: the date normalizer's literal cases — `3/4/25` under reference year
2025 normalizes to `03/04/2025` (ISO `2025-03-04`); the year-first literal
`2025-3-4` normalizes to March 4, 2025; `12JAN25` normalizes to
`01/12/2025`; and `13/45` yields an absent date (month 13 fails `date()`
validation) rather than an error. -/
theorem C7_date_normalizer_cases :
    parse_comment_line "3/4/25" ⟨2025, 6, 1⟩ =
      (some "2025-03-04", some "03/04/2025", none, none) ∧
    normalize_date_str "2025-3-4" ⟨2025, 6, 1⟩ = some ⟨2025, 3, 4⟩ ∧
    parse_comment_line "12JAN25" ⟨2025, 6, 1⟩ =
      (some "2025-01-12", some "01/12/2025", none, none) ∧
    parse_comment_line "13/45" ⟨2025, 6, 1⟩ = (none, none, none, none) := by
  refine ⟨by decide, by decide, by decide, by decide⟩

end DepEngine

namespace DepEngine

/-- C5: the comment action classifier tests its buckets in the fixed
priority order obtained, applied, reviewed-and-required, under-review,
no-permit-needed, monument-survey-complete, the first match deciding the
action and `check` falling out when none matches; concretely, a text
matching both an obtained phrase and a no-permit phrase classifies as
`Permit obtained.`, and the lone conditional phrase `if a permit is
required` does not classify as no-permit-needed (it falls through to
`check`). -/
theorem C5_classifier_priority (txt : String) :
    (reSearch obtained_re txt = true →
      (parse_comment_semantics txt).1 = PERMIT_OBTAINED_ACTION) ∧
    (reSearch obtained_re txt = false → matches_applied txt = true →
      (parse_comment_semantics txt).1 = PERMIT_APPLIED_ACTION) ∧
    (reSearch obtained_re txt = false → matches_applied txt = false →
      matches_reviewed_permit_required txt = true →
      (parse_comment_semantics txt).1 = REVIEWED_PERMIT_REQ_ACTION) ∧
    (reSearch obtained_re txt = false → matches_applied txt = false →
      matches_reviewed_permit_required txt = false →
      matches_under_review txt = true →
      (parse_comment_semantics txt).1 = UNDER_REVIEW_ACTION) ∧
    (reSearch obtained_re txt = false → matches_applied txt = false →
      matches_reviewed_permit_required txt = false →
      matches_under_review txt = false → matches_no_permit txt = true →
      (parse_comment_semantics txt).1 = NO_PERMIT_ACTION) ∧
    (reSearch obtained_re txt = false → matches_applied txt = false →
      matches_reviewed_permit_required txt = false →
      matches_under_review txt = false → matches_no_permit txt = false →
      matches_monument_done txt = true →
      (parse_comment_semantics txt).1 = MONUMENT_DONE_ACTION) ∧
    (reSearch obtained_re txt = false → matches_applied txt = false →
      matches_reviewed_permit_required txt = false →
      matches_under_review txt = false → matches_no_permit txt = false →
      matches_monument_done txt = false →
      parse_comment_semantics txt = ("check", "-", "-")) ∧
    reSearch obtained_re "Permit obtained. No permit needed." = true ∧
    matches_no_permit "Permit obtained. No permit needed." = true ∧
    parse_comment_semantics "Permit obtained. No permit needed." =
      (PERMIT_OBTAINED_ACTION, "-", "-") ∧
    matches_no_permit "if a permit is required" = false ∧
    parse_comment_semantics "if a permit is required" = ("check", "-", "-") := by
  refine ⟨?_, ?_, ?_, ?_, ?_, ?_, ?_, by decide, by decide, by decide, by decide,
    by decide⟩
  · intro h1
    simp [parse_comment_semantics, h1]
  · intro h1 h2
    simp [parse_comment_semantics, h1, h2]
  · intro h1 h2 h3
    simp [parse_comment_semantics, h1, h2, h3]
  · intro h1 h2 h3 h4
    simp [parse_comment_semantics, h1, h2, h3, h4]
  · intro h1 h2 h3 h4 h5
    simp [parse_comment_semantics, h1, h2, h3, h4, h5]
  · intro h1 h2 h3 h4 h5 h6
    simp [parse_comment_semantics, h1, h2, h3, h4, h5, h6]
  · intro h1 h2 h3 h4 h5 h6
    simp [parse_comment_semantics, h1, h2, h3, h4, h5, h6]

/-- C5 witness: the priority chain applied at `Permit obtained.` (first
bucket) and at `No permit needed.` (fifth bucket, the four earlier buckets
not matching). -/
theorem C5_classifier_priority_witness :
    (parse_comment_semantics "Permit obtained.").1 = PERMIT_OBTAINED_ACTION ∧
    (parse_comment_semantics "No permit needed.").1 = NO_PERMIT_ACTION :=
  ⟨(C5_classifier_priority "Permit obtained.").1 (by decide),
    (C5_classifier_priority "No permit needed.").2.2.2.2.1 (by decide) (by decide)
      (by decide) (by decide) (by decide)⟩

end DepEngine

namespace DepEngine

/-- C3: within one rebuild the Gate Engine runs before the Land builder, so
the Land gate's force-Closed short-circuit reads the Action of the previous
rebuild (first conjunct: the new gate is a function of the incoming state's
Action). Concretely, on an order whose Land builder first produces the
verdict `Permit not required.`, that same rebuild still computes the gate
`Pending` without the verdict, and the verdict closes the gate only on the
next rebuild. -/
theorem C3_land_gate_staleness :
    (∀ (u : LandUpstream) (today : PyDate) (todayIso : String) (s : LandCycleState),
      (rebuild_land_cycle u today todayIso s).landGate =
        land_gate (srcOf (gate_raw_of u s.landAction)) todayIso) ∧
    (rebuild_land_cycle landUpstreamNoPermit ⟨2025, 6, 1⟩ "2025-06-01"
      ⟨"Closed", none⟩).landGate = "Pending" ∧
    (rebuild_land_cycle landUpstreamNoPermit ⟨2025, 6, 1⟩ "2025-06-01"
      ⟨"Closed", none⟩).landAction = some "Permit not required." ∧
    (rebuild_land_cycle landUpstreamNoPermit ⟨2025, 6, 1⟩ "2025-06-01"
      (rebuild_land_cycle landUpstreamNoPermit ⟨2025, 6, 1⟩ "2025-06-01"
        ⟨"Closed", none⟩)).landGate = "Closed" :=
  ⟨fun _ _ _ _ => rfl, by decide, by decide, by decide⟩

/-- C10: on a Land tracker row whose Parsed Action is
`Monument survey complete.`, the final Action is
`Monument survey complete. No action required.` when both SP57 and RP57
upper-trim to `COMP` and `check` otherwise — except that the later
permit-expired rule wins whenever its guard holds (Notification Status
upper-trims to `OPEN` and the later of the two expiration dates is before
today). -/
theorem C10_monument_override (base pa sp57 rp57 : String)
    (notif expDate parsedExpDate : Option String) (todayIso : String)
    (h : pa = "Monument survey complete.") :
    land_tracker_action base pa sp57 rp57 notif expDate parsedExpDate todayIso =
      if permit_expired_cond notif expDate parsedExpDate todayIso then
        "Permit expired. Please request for extension."
      else if sqlUpper (sqlTrim sp57) = "COMP" ∧ sqlUpper (sqlTrim rp57) = "COMP" then
        "Monument survey complete. No action required."
      else "check" := by
  subst h
  unfold land_tracker_action
  split_ifs <;> simp_all

/-- C10 witness: the override theorem at three concrete rows — an expired
OPEN permit (the expired rule wins over the completed monument survey), a
both-COMP row without expirations (`No action required.`), and a row whose
RP57 is not complete (`check`). -/
theorem C10_monument_override_witness :
    land_tracker_action "check" "Monument survey complete." "COMP" " comp"
        (some "Open") (some "01/15/2020") none "2025-06-01" =
      "Permit expired. Please request for extension." ∧
    land_tracker_action "check" "Monument survey complete." "COMP" "comp"
        (some "OPEN") none none "2025-06-01" =
      "Monument survey complete. No action required." ∧
    land_tracker_action "check" "Monument survey complete." "COMP" "INPR"
        (some "OPEN") none none "2025-06-01" = "check" :=
  ⟨(C10_monument_override "check" _ "COMP" " comp" (some "Open")
      (some "01/15/2020") none "2025-06-01" rfl).trans (by decide),
    (C10_monument_override "check" _ "COMP" "comp" (some "OPEN") none none
      "2025-06-01" rfl).trans (by decide),
    (C10_monument_override "check" _ "COMP" "INPR" (some "OPEN") none none
      "2025-06-01" rfl).trans (by decide)⟩

end DepEngine
